import Mathlib

/-!
Verification development for the p9fs repository: a shallow embedding of
the 9P2000.L message catalog (src/lib/src/proto.rs), the ispf little-endian
wire codec used by its serde attributes, the reply-dispatch function
read_msg (src/p9kp/src/lib.rs), and the pull driver loops
(src/p9kp/src/bin/p9kp.rs), together with theorems about the properties
stated in the specification.

Bytes are modelled as naturals; widths are enforced by explicit mod and by
wellformedness hypotheses mirroring the Rust integer types.
-/

namespace P9

/-! ## Little-endian scalar codec (ispf primitives) -/

def u8le (n : Nat) : List Nat := [n % 256]

def u16le (n : Nat) : List Nat := [n % 256, n / 256 % 256]

def u32le (n : Nat) : List Nat :=
  [n % 256, n / 256 % 256, n / 65536 % 256, n / 16777216 % 256]

def u64le (n : Nat) : List Nat :=
  [n % 256, n / 256 % 256, n / 65536 % 256, n / 16777216 % 256,
   n / 4294967296 % 256, n / 1099511627776 % 256,
   n / 281474976710656 % 256, n / 72057594037927936 % 256]

def rdU8 : List Nat → Option (Nat × List Nat)
  | b :: r => some (b, r)
  | [] => none

def rdU16 : List Nat → Option (Nat × List Nat)
  | a :: b :: r => some (a + 256 * b, r)
  | _ => none

def rdU32 : List Nat → Option (Nat × List Nat)
  | a :: b :: c :: d :: r =>
    some (a + 256 * b + 65536 * c + 16777216 * d, r)
  | _ => none

def rdU64 : List Nat → Option (Nat × List Nat)
  | a :: b :: c :: d :: e :: f :: g :: h :: r =>
    some (a + 256 * b + 65536 * c + 16777216 * d + 4294967296 * e +
      1099511627776 * f + 281474976710656 * g + 72057594037927936 * h, r)
  | _ => none

/-- Consume exactly `n` bytes, failing on a short buffer. -/
def rdBytes (n : Nat) (l : List Nat) : Option (List Nat × List Nat) :=
  if n ≤ l.length then some (l.take n, l.drop n) else none

/-- Sequencing for parsers over a byte list (the Option monad bind,
specialised to value-and-rest pairs). -/
def pbind : Option (α × List Nat) → (α → List Nat → Option β) → Option β
  | none, _ => none
  | some (a, l), f => f a l

def obind : Option α → (α → Option β) → Option β
  | none, _ => none
  | some a, f => f a

theorem pbind_some (a : α) (l : List Nat)
    (f : α → List Nat → Option β) : pbind (some (a, l)) f = f a l := rfl

theorem pbind_none (f : α → List Nat → Option β) :
    pbind none f = none := rfl

theorem obind_some (a : α) (f : α → Option β) : obind (some a) f = f a := rfl

/-- ispf str_lv16: u16 byte-length prefix followed by the raw bytes. -/
def encStr16 (s : List Nat) : List Nat := u16le s.length ++ s

def rdStr16 (l : List Nat) : Option (List Nat × List Nat) :=
  pbind (rdU16 l) fun n l =>
  rdBytes n l

/-- Concatenated element encodings (no prefix). -/
def encList (f : α → List Nat) : List α → List Nat
  | [] => []
  | x :: xs => f x ++ encList f xs

/-- Read `n` consecutive elements with the element parser `f`. -/
def rdCount (f : List Nat → Option (α × List Nat)) :
    Nat → List Nat → Option (List α × List Nat)
  | 0, l => some ([], l)
  | n + 1, l =>
    pbind (f l) fun x l =>
    pbind (rdCount f n l) fun xs l =>
    some (x :: xs, l)

theorem rdU8_enc (n : Nat) (r : List Nat) :
    rdU8 (u8le n ++ r) = some (n % 256, r) := rfl

theorem rdU16_enc (n : Nat) (r : List Nat) :
    rdU16 (u16le n ++ r) = some (n % 65536, r) := by
  simp only [u16le, List.cons_append, List.nil_append, rdU16]
  congr 1
  congr 1
  omega

theorem rdU32_enc (n : Nat) (r : List Nat) :
    rdU32 (u32le n ++ r) = some (n % 4294967296, r) := by
  simp only [u32le, List.cons_append, List.nil_append, rdU32]
  congr 1
  congr 1
  omega

theorem rdU64_enc (n : Nat) (r : List Nat) :
    rdU64 (u64le n ++ r) = some (n % 18446744073709551616, r) := by
  simp only [u64le, List.cons_append, List.nil_append, rdU64]
  congr 1
  congr 1
  omega

theorem rdU16_enc_lt {n : Nat} (h : n < 65536) (r : List Nat) :
    rdU16 (u16le n ++ r) = some (n, r) := by
  rw [rdU16_enc, Nat.mod_eq_of_lt h]

theorem rdU32_enc_lt {n : Nat} (h : n < 4294967296) (r : List Nat) :
    rdU32 (u32le n ++ r) = some (n, r) := by
  rw [rdU32_enc, Nat.mod_eq_of_lt h]

theorem rdU64_enc_lt {n : Nat} (h : n < 18446744073709551616) (r : List Nat) :
    rdU64 (u64le n ++ r) = some (n, r) := by
  rw [rdU64_enc, Nat.mod_eq_of_lt h]

theorem rdU8_enc_lt {n : Nat} (h : n < 256) (r : List Nat) :
    rdU8 (u8le n ++ r) = some (n, r) := by
  rw [rdU8_enc, Nat.mod_eq_of_lt h]

theorem rdBytes_enc (s r : List Nat) :
    rdBytes s.length (s ++ r) = some (s, r) := by
  unfold rdBytes
  rw [if_pos (by simp), List.take_left, List.drop_left]

theorem rdStr16_enc {s : List Nat} (h : s.length < 65536) (r : List Nat) :
    rdStr16 (encStr16 s ++ r) = some (s, r) := by
  unfold rdStr16 encStr16
  rw [List.append_assoc, rdU16_enc_lt h]
  simpa using rdBytes_enc s r

theorem u8le_length (n : Nat) : (u8le n).length = 1 := rfl

theorem u16le_length (n : Nat) : (u16le n).length = 2 := rfl

theorem u32le_length (n : Nat) : (u32le n).length = 4 := rfl

theorem u64le_length (n : Nat) : (u64le n).length = 8 := rfl

theorem encStr16_length (s : List Nat) :
    (encStr16 s).length = 2 + s.length := by
  simp [encStr16, u16le]
  omega

theorem encList_length (f : α → List Nat) (xs : List α) :
    (encList f xs).length = (xs.map (fun x => (f x).length)).sum := by
  induction xs with
  | nil => rfl
  | cons x xs ih => simp [encList, ih]

/-! ## MessageType (proto.rs) -/

inductive MessageType
  | Unknown
  | Tlerror | Rlerror
  | Tstatfs | Rstatfs
  | Tlopen | Rlopen
  | Tlcreate | Rlcreate
  | Tsymlink | Rsymlink
  | Tmknod | Rmknod
  | Trename | Rrename
  | Treadlink | Rreadlink
  | Tgetattr | Rgetattr
  | Txattrwalk | Rxattrwalk
  | Treaddir | Rreaddir
  | Tfsync | Rfsync
  | Tlock | Rlock
  | Tgetlock | Rgetlock
  | Tlink | Rlink
  | Tmkdir | Rmkdir
  | Trenameat | Rrenameat
  | Tunlinkat | Runlinkat
  | Tversion | Rversion
  | Tauth | Rauth
  | Tattach | Rattach
  | Tflush | Rflush
  | Twalk | Rwalk
  | Tread | Rread
  | Twrite | Rwrite
  | Tclunk | Rclunk
  | Tremove | Rremove
  deriving DecidableEq, Repr

namespace MessageType

def toNat : MessageType → Nat
  | .Unknown => 0
  | .Tlerror => 6
  | .Rlerror => 7
  | .Tstatfs => 8
  | .Rstatfs => 9
  | .Tlopen => 12
  | .Rlopen => 13
  | .Tlcreate => 14
  | .Rlcreate => 15
  | .Tsymlink => 16
  | .Rsymlink => 17
  | .Tmknod => 18
  | .Rmknod => 19
  | .Trename => 20
  | .Rrename => 21
  | .Treadlink => 22
  | .Rreadlink => 23
  | .Tgetattr => 24
  | .Rgetattr => 25
  | .Txattrwalk => 30
  | .Rxattrwalk => 31
  | .Treaddir => 40
  | .Rreaddir => 41
  | .Tfsync => 50
  | .Rfsync => 51
  | .Tlock => 52
  | .Rlock => 53
  | .Tgetlock => 54
  | .Rgetlock => 55
  | .Tlink => 70
  | .Rlink => 71
  | .Tmkdir => 72
  | .Rmkdir => 73
  | .Trenameat => 74
  | .Rrenameat => 75
  | .Tunlinkat => 76
  | .Runlinkat => 77
  | .Tversion => 100
  | .Rversion => 101
  | .Tauth => 102
  | .Rauth => 103
  | .Tattach => 104
  | .Rattach => 105
  | .Tflush => 108
  | .Rflush => 109
  | .Twalk => 110
  | .Rwalk => 111
  | .Tread => 116
  | .Rread => 117
  | .Twrite => 118
  | .Rwrite => 119
  | .Tclunk => 120
  | .Rclunk => 121
  | .Tremove => 122
  | .Rremove => 123

/-- The TryFromPrimitive inverse: accept exactly the declared opcodes. -/
def fromNat : Nat → Option MessageType
  | 0 => some .Unknown
  | 6 => some .Tlerror
  | 7 => some .Rlerror
  | 8 => some .Tstatfs
  | 9 => some .Rstatfs
  | 12 => some .Tlopen
  | 13 => some .Rlopen
  | 14 => some .Tlcreate
  | 15 => some .Rlcreate
  | 16 => some .Tsymlink
  | 17 => some .Rsymlink
  | 18 => some .Tmknod
  | 19 => some .Rmknod
  | 20 => some .Trename
  | 21 => some .Rrename
  | 22 => some .Treadlink
  | 23 => some .Rreadlink
  | 24 => some .Tgetattr
  | 25 => some .Rgetattr
  | 30 => some .Txattrwalk
  | 31 => some .Rxattrwalk
  | 40 => some .Treaddir
  | 41 => some .Rreaddir
  | 50 => some .Tfsync
  | 51 => some .Rfsync
  | 52 => some .Tlock
  | 53 => some .Rlock
  | 54 => some .Tgetlock
  | 55 => some .Rgetlock
  | 70 => some .Tlink
  | 71 => some .Rlink
  | 72 => some .Tmkdir
  | 73 => some .Rmkdir
  | 74 => some .Trenameat
  | 75 => some .Rrenameat
  | 76 => some .Tunlinkat
  | 77 => some .Runlinkat
  | 100 => some .Tversion
  | 101 => some .Rversion
  | 102 => some .Tauth
  | 103 => some .Rauth
  | 104 => some .Tattach
  | 105 => some .Rattach
  | 108 => some .Tflush
  | 109 => some .Rflush
  | 110 => some .Twalk
  | 111 => some .Rwalk
  | 116 => some .Tread
  | 117 => some .Rread
  | 118 => some .Twrite
  | 119 => some .Rwrite
  | 120 => some .Tclunk
  | 121 => some .Rclunk
  | 122 => some .Tremove
  | 123 => some .Rremove
  | _ => none

theorem fromNat_toNat_mt (t : MessageType) : fromNat t.toNat = some t := by
  cases t <;> rfl

theorem toNat_lt_mt (t : MessageType) : t.toNat < 256 := by
  cases t <;> simp [toNat]

end MessageType

/-- Parse one opcode byte through the TryFromPrimitive conversion. -/
def rdMT (l : List Nat) : Option (MessageType × List Nat) :=
  pbind (rdU8 l) fun b l =>
  match MessageType.fromNat b with
  | some t => some (t, l)
  | none => none

theorem rdMT_enc (t : MessageType) (r : List Nat) :
    rdMT (u8le t.toNat ++ r) = some (t, r) := by
  unfold rdMT
  rw [rdU8_enc_lt t.toNat_lt_mt, pbind_some]
  simp [MessageType.fromNat_toNat_mt]

/-! ## QidType and Qid (proto.rs) -/

inductive QidType
  | Dir | Append | Excl | Mount | Auth | Tmp | Link | File
  deriving DecidableEq, Repr

namespace QidType

def toNat : QidType → Nat
  | .Dir => 0x80
  | .Append => 0x40
  | .Excl => 0x20
  | .Mount => 0x10
  | .Auth => 0x08
  | .Tmp => 0x04
  | .Link => 0x02
  | .File => 0x00

def fromNat : Nat → Option QidType
  | 0x80 => some .Dir
  | 0x40 => some .Append
  | 0x20 => some .Excl
  | 0x10 => some .Mount
  | 0x08 => some .Auth
  | 0x04 => some .Tmp
  | 0x02 => some .Link
  | 0x00 => some .File
  | _ => none

theorem fromNat_toNat_qt (t : QidType) : fromNat t.toNat = some t := by
  cases t <;> rfl

theorem toNat_lt_qt (t : QidType) : t.toNat < 256 := by
  cases t <;> simp [toNat]

end QidType

def rdQT (l : List Nat) : Option (QidType × List Nat) :=
  pbind (rdU8 l) fun b l =>
  match QidType.fromNat b with
  | some t => some (t, l)
  | none => none

theorem rdQT_enc (t : QidType) (r : List Nat) :
    rdQT (u8le t.toNat ++ r) = some (t, r) := by
  unfold rdQT
  rw [rdU8_enc_lt t.toNat_lt_qt, pbind_some]
  simp [QidType.fromNat_toNat_qt]

structure Qid where
  typ : QidType
  version : Nat
  path : Nat
  deriving DecidableEq, Repr

def Qid.wf (q : Qid) : Prop :=
  q.version < 4294967296 ∧ q.path < 18446744073709551616

instance (q : Qid) : Decidable q.wf := by unfold Qid.wf; infer_instance

def encQid (q : Qid) : List Nat :=
  u8le q.typ.toNat ++ u32le q.version ++ u64le q.path

def rdQid (l : List Nat) : Option (Qid × List Nat) :=
  pbind (rdQT l) fun t l =>
  pbind (rdU32 l) fun v l =>
  pbind (rdU64 l) fun p l =>
  some (⟨t, v, p⟩, l)

theorem encQid_length (q : Qid) : (encQid q).length = 13 := by
  simp [encQid, u8le, u32le, u64le]

theorem rdQid_enc {q : Qid} (h : q.wf) (r : List Nat) :
    rdQid (encQid q ++ r) = some (q, r) := by
  unfold rdQid encQid
  rw [List.append_assoc, List.append_assoc, rdQT_enc, pbind_some,
    rdU32_enc_lt h.1, pbind_some, rdU64_enc_lt h.2, pbind_some]

/-! ## Protocol version strings (P9Version, proto.rs) -/

inductive P9Version
  | V2000 | V2000U | V2000L | V2000P4
  deriving DecidableEq, Repr

/-- UTF-8 bytes of P9Version::to_string. -/
def P9Version.toBytes : P9Version → List Nat
  | .V2000 => [0x39, 0x50, 0x32, 0x30, 0x30, 0x30]
  | .V2000U => [0x39, 0x50, 0x32, 0x30, 0x30, 0x30, 0x2e, 0x55]
  | .V2000L => [0x39, 0x50, 0x32, 0x30, 0x30, 0x30, 0x2e, 0x4c]
  | .V2000P4 => [0x39, 0x50, 0x32, 0x30, 0x30, 0x30, 0x2e, 0x50, 0x34]

/-! ## Message records (proto.rs). Each struct mirrors the Rust field list;
each `new` mirrors the Rust constructor including its `as u32` cast, and
each `enc` is the ispf little-endian serialization of the declared fields
in order. -/

structure Partial where
  size : Nat
  typ : MessageType
  tag : Nat
  deriving DecidableEq, Repr

def parsePartial (l : List Nat) : Option (Partial × List Nat) :=
  pbind (rdU32 l) fun sz l =>
  pbind (rdMT l) fun t l =>
  pbind (rdU16 l) fun tg l =>
  some (⟨sz, t, tg⟩, l)

structure Rlerror where
  size : Nat
  typ : MessageType
  tag : Nat
  ecode : Nat
  deriving DecidableEq, Repr

def Rlerror.new (ecode : Nat) : Rlerror :=
  { size := (4 + 1 + 2 + 4) % 4294967296
    typ := .Rlerror
    tag := 0
    ecode := ecode }

def encRlerror (m : Rlerror) : List Nat :=
  u32le m.size ++ u8le m.typ.toNat ++ u16le m.tag ++ u32le m.ecode

def parseRlerror (l : List Nat) : Option (Rlerror × List Nat) :=
  pbind (rdU32 l) fun sz l =>
  pbind (rdMT l) fun t l =>
  pbind (rdU16 l) fun tg l =>
  pbind (rdU32 l) fun e l =>
  some (⟨sz, t, tg, e⟩, l)

def Rlerror.wf (m : Rlerror) : Prop :=
  m.size < 4294967296 ∧ m.tag < 65536 ∧ m.ecode < 4294967296

structure Version where
  size : Nat
  typ : MessageType
  tag : Nat
  msize : Nat
  version : List Nat
  deriving DecidableEq, Repr

def Version.new (v : P9Version) : Version :=
  let vs := v.toBytes
  { size := (4 + 1 + 2 + 4 + 2 + vs.length) % 4294967296
    typ := .Tversion
    tag := 0
    msize := 0x8000
    version := vs }

def encVersion (m : Version) : List Nat :=
  u32le m.size ++ u8le m.typ.toNat ++ u16le m.tag ++ u32le m.msize ++
    encStr16 m.version

def parseVersion (l : List Nat) : Option (Version × List Nat) :=
  pbind (rdU32 l) fun sz l =>
  pbind (rdMT l) fun t l =>
  pbind (rdU16 l) fun tg l =>
  pbind (rdU32 l) fun ms l =>
  pbind (rdStr16 l) fun v l =>
  some (⟨sz, t, tg, ms, v⟩, l)

def Version.wf (m : Version) : Prop :=
  m.size < 4294967296 ∧ m.tag < 65536 ∧ m.msize < 4294967296 ∧
    m.version.length < 65536

structure Tclunk where
  size : Nat
  typ : MessageType
  tag : Nat
  fid : Nat
  deriving DecidableEq, Repr

def Tclunk.new (fid : Nat) : Tclunk :=
  { size := (4 + 1 + 2 + 4) % 4294967296
    typ := .Tclunk
    tag := 0
    fid := fid }

def encTclunk (m : Tclunk) : List Nat :=
  u32le m.size ++ u8le m.typ.toNat ++ u16le m.tag ++ u32le m.fid

def parseTclunk (l : List Nat) : Option (Tclunk × List Nat) :=
  pbind (rdU32 l) fun sz l =>
  pbind (rdMT l) fun t l =>
  pbind (rdU16 l) fun tg l =>
  pbind (rdU32 l) fun f l =>
  some (⟨sz, t, tg, f⟩, l)

def Tclunk.wf (m : Tclunk) : Prop :=
  m.size < 4294967296 ∧ m.tag < 65536 ∧ m.fid < 4294967296

structure Rclunk where
  size : Nat
  typ : MessageType
  tag : Nat
  deriving DecidableEq, Repr

def Rclunk.new : Rclunk :=
  { size := (4 + 1 + 2) % 4294967296
    typ := .Rclunk
    tag := 0 }

def encRclunk (m : Rclunk) : List Nat :=
  u32le m.size ++ u8le m.typ.toNat ++ u16le m.tag

def parseRclunk (l : List Nat) : Option (Rclunk × List Nat) :=
  pbind (rdU32 l) fun sz l =>
  pbind (rdMT l) fun t l =>
  pbind (rdU16 l) fun tg l =>
  some (⟨sz, t, tg⟩, l)

def Rclunk.wf (m : Rclunk) : Prop :=
  m.size < 4294967296 ∧ m.tag < 65536

structure Tgetattr where
  size : Nat
  typ : MessageType
  tag : Nat
  fid : Nat
  request_mask : Nat
  deriving DecidableEq, Repr

def Tgetattr.new (fid request_mask : Nat) : Tgetattr :=
  { size := (4 + 1 + 2 + 4 + 8) % 4294967296
    typ := .Tgetattr
    tag := 0
    fid := fid
    request_mask := request_mask }

def encTgetattr (m : Tgetattr) : List Nat :=
  u32le m.size ++ u8le m.typ.toNat ++ u16le m.tag ++ u32le m.fid ++
    u64le m.request_mask

def parseTgetattr (l : List Nat) : Option (Tgetattr × List Nat) :=
  pbind (rdU32 l) fun sz l =>
  pbind (rdMT l) fun t l =>
  pbind (rdU16 l) fun tg l =>
  pbind (rdU32 l) fun f l =>
  pbind (rdU64 l) fun rm l =>
  some (⟨sz, t, tg, f, rm⟩, l)

def Tgetattr.wf (m : Tgetattr) : Prop :=
  m.size < 4294967296 ∧ m.tag < 65536 ∧ m.fid < 4294967296 ∧
    m.request_mask < 18446744073709551616

structure Tstatfs where
  size : Nat
  typ : MessageType
  tag : Nat
  fid : Nat
  deriving DecidableEq, Repr

def Tstatfs.new (fid : Nat) : Tstatfs :=
  { size := (4 + 1 + 2 + 4) % 4294967296
    typ := .Tstatfs
    tag := 0
    fid := fid }

def encTstatfs (m : Tstatfs) : List Nat :=
  u32le m.size ++ u8le m.typ.toNat ++ u16le m.tag ++ u32le m.fid

def parseTstatfs (l : List Nat) : Option (Tstatfs × List Nat) :=
  pbind (rdU32 l) fun sz l =>
  pbind (rdMT l) fun t l =>
  pbind (rdU16 l) fun tg l =>
  pbind (rdU32 l) fun f l =>
  some (⟨sz, t, tg, f⟩, l)

def Tstatfs.wf (m : Tstatfs) : Prop :=
  m.size < 4294967296 ∧ m.tag < 65536 ∧ m.fid < 4294967296

structure Tlopen where
  size : Nat
  typ : MessageType
  tag : Nat
  fid : Nat
  flags : Nat
  deriving DecidableEq, Repr

def Tlopen.new (fid flags : Nat) : Tlopen :=
  { size := (4 + 1 + 2 + 4 + 4) % 4294967296
    typ := .Tlopen
    tag := 0
    fid := fid
    flags := flags }

def encTlopen (m : Tlopen) : List Nat :=
  u32le m.size ++ u8le m.typ.toNat ++ u16le m.tag ++ u32le m.fid ++
    u32le m.flags

def parseTlopen (l : List Nat) : Option (Tlopen × List Nat) :=
  pbind (rdU32 l) fun sz l =>
  pbind (rdMT l) fun t l =>
  pbind (rdU16 l) fun tg l =>
  pbind (rdU32 l) fun f l =>
  pbind (rdU32 l) fun fl l =>
  some (⟨sz, t, tg, f, fl⟩, l)

def Tlopen.wf (m : Tlopen) : Prop :=
  m.size < 4294967296 ∧ m.tag < 65536 ∧ m.fid < 4294967296 ∧
    m.flags < 4294967296

structure Treaddir where
  size : Nat
  typ : MessageType
  tag : Nat
  fid : Nat
  offset : Nat
  count : Nat
  deriving DecidableEq, Repr

def Treaddir.new (fid offset count : Nat) : Treaddir :=
  { size := (4 + 1 + 2 + 4 + 8 + 4) % 4294967296
    typ := .Treaddir
    tag := 0
    fid := fid
    offset := offset
    count := count }

def encTreaddir (m : Treaddir) : List Nat :=
  u32le m.size ++ u8le m.typ.toNat ++ u16le m.tag ++ u32le m.fid ++
    u64le m.offset ++ u32le m.count

def parseTreaddir (l : List Nat) : Option (Treaddir × List Nat) :=
  pbind (rdU32 l) fun sz l =>
  pbind (rdMT l) fun t l =>
  pbind (rdU16 l) fun tg l =>
  pbind (rdU32 l) fun f l =>
  pbind (rdU64 l) fun o l =>
  pbind (rdU32 l) fun c l =>
  some (⟨sz, t, tg, f, o, c⟩, l)

def Treaddir.wf (m : Treaddir) : Prop :=
  m.size < 4294967296 ∧ m.tag < 65536 ∧ m.fid < 4294967296 ∧
    m.offset < 18446744073709551616 ∧ m.count < 4294967296

structure Tread where
  size : Nat
  typ : MessageType
  tag : Nat
  fid : Nat
  offset : Nat
  count : Nat
  deriving DecidableEq, Repr

def Tread.new (fid offset count : Nat) : Tread :=
  { size := (4 + 1 + 2 + 4 + 8 + 4) % 4294967296
    typ := .Tread
    tag := 0
    fid := fid
    offset := offset
    count := count }

def encTread (m : Tread) : List Nat :=
  u32le m.size ++ u8le m.typ.toNat ++ u16le m.tag ++ u32le m.fid ++
    u64le m.offset ++ u32le m.count

def parseTread (l : List Nat) : Option (Tread × List Nat) :=
  pbind (rdU32 l) fun sz l =>
  pbind (rdMT l) fun t l =>
  pbind (rdU16 l) fun tg l =>
  pbind (rdU32 l) fun f l =>
  pbind (rdU64 l) fun o l =>
  pbind (rdU32 l) fun c l =>
  some (⟨sz, t, tg, f, o, c⟩, l)

def Tread.wf (m : Tread) : Prop :=
  m.size < 4294967296 ∧ m.tag < 65536 ∧ m.fid < 4294967296 ∧
    m.offset < 18446744073709551616 ∧ m.count < 4294967296

structure Rwrite where
  size : Nat
  typ : MessageType
  tag : Nat
  count : Nat
  deriving DecidableEq, Repr

def Rwrite.new (count : Nat) : Rwrite :=
  { size := (4 + 1 + 2 + 4) % 4294967296
    typ := .Rwrite
    tag := 0
    count := count }

def encRwrite (m : Rwrite) : List Nat :=
  u32le m.size ++ u8le m.typ.toNat ++ u16le m.tag ++ u32le m.count

def parseRwrite (l : List Nat) : Option (Rwrite × List Nat) :=
  pbind (rdU32 l) fun sz l =>
  pbind (rdMT l) fun t l =>
  pbind (rdU16 l) fun tg l =>
  pbind (rdU32 l) fun c l =>
  some (⟨sz, t, tg, c⟩, l)

def Rwrite.wf (m : Rwrite) : Prop :=
  m.size < 4294967296 ∧ m.tag < 65536 ∧ m.count < 4294967296

structure Rgetattr where
  size : Nat
  typ : MessageType
  tag : Nat
  valid : Nat
  qid : Qid
  mode : Nat
  uid : Nat
  gid : Nat
  nlink : Nat
  rdev : Nat
  attrsize : Nat
  blksize : Nat
  blocks : Nat
  atime_sec : Nat
  atime_nsec : Nat
  mtime_sec : Nat
  mtime_nsec : Nat
  ctime_sec : Nat
  ctime_nsec : Nat
  btime_sec : Nat
  btime_nsec : Nat
  gen : Nat
  data_version : Nat
  deriving DecidableEq, Repr

def Rgetattr.new (valid : Nat) (qid : Qid)
    (mode uid gid nlink rdev attrsize blksize blocks : Nat)
    (atime_sec atime_nsec mtime_sec mtime_nsec : Nat)
    (ctime_sec ctime_nsec btime_sec btime_nsec gen data_version : Nat) :
    Rgetattr :=
  { size := (4 + 1 + 2 + 8 + 1 + 4 + 8 + 4 + 4 + 4 + 8 + 8 + 8 + 8 + 8 +
      8 + 8 + 8 + 8 + 8 + 8 + 8 + 8 + 8 + 8) % 4294967296
    typ := .Rgetattr
    tag := 0
    valid := valid
    qid := qid
    mode := mode
    uid := uid
    gid := gid
    nlink := nlink
    rdev := rdev
    attrsize := attrsize
    blksize := blksize
    blocks := blocks
    atime_sec := atime_sec
    atime_nsec := atime_nsec
    mtime_sec := mtime_sec
    mtime_nsec := mtime_nsec
    ctime_sec := ctime_sec
    ctime_nsec := ctime_nsec
    btime_sec := btime_sec
    btime_nsec := btime_nsec
    gen := gen
    data_version := data_version }

def encRgetattr (m : Rgetattr) : List Nat :=
  u32le m.size ++ u8le m.typ.toNat ++ u16le m.tag ++ u64le m.valid ++
    encQid m.qid ++ u32le m.mode ++ u32le m.uid ++ u32le m.gid ++
    u64le m.nlink ++ u64le m.rdev ++ u64le m.attrsize ++ u64le m.blksize ++
    u64le m.blocks ++ u64le m.atime_sec ++ u64le m.atime_nsec ++
    u64le m.mtime_sec ++ u64le m.mtime_nsec ++ u64le m.ctime_sec ++
    u64le m.ctime_nsec ++ u64le m.btime_sec ++ u64le m.btime_nsec ++
    u64le m.gen ++ u64le m.data_version

def parseRgetattr (l : List Nat) : Option (Rgetattr × List Nat) :=
  pbind (rdU32 l) fun sz l =>
  pbind (rdMT l) fun t l =>
  pbind (rdU16 l) fun tg l =>
  pbind (rdU64 l) fun va l =>
  pbind (rdQid l) fun q l =>
  pbind (rdU32 l) fun mo l =>
  pbind (rdU32 l) fun ui l =>
  pbind (rdU32 l) fun gi l =>
  pbind (rdU64 l) fun nl l =>
  pbind (rdU64 l) fun rd l =>
  pbind (rdU64 l) fun asz l =>
  pbind (rdU64 l) fun bsz l =>
  pbind (rdU64 l) fun bl l =>
  pbind (rdU64 l) fun ats l =>
  pbind (rdU64 l) fun atn l =>
  pbind (rdU64 l) fun mts l =>
  pbind (rdU64 l) fun mtn l =>
  pbind (rdU64 l) fun cts l =>
  pbind (rdU64 l) fun ctn l =>
  pbind (rdU64 l) fun bts l =>
  pbind (rdU64 l) fun btn l =>
  pbind (rdU64 l) fun ge l =>
  pbind (rdU64 l) fun dv l =>
  some (⟨sz, t, tg, va, q, mo, ui, gi, nl, rd, asz, bsz, bl, ats, atn,
    mts, mtn, cts, ctn, bts, btn, ge, dv⟩, l)

def Rgetattr.wf (m : Rgetattr) : Prop :=
  m.size < 4294967296 ∧ m.tag < 65536 ∧
    m.valid < 18446744073709551616 ∧ m.qid.wf ∧
    m.mode < 4294967296 ∧ m.uid < 4294967296 ∧ m.gid < 4294967296 ∧
    m.nlink < 18446744073709551616 ∧ m.rdev < 18446744073709551616 ∧
    m.attrsize < 18446744073709551616 ∧ m.blksize < 18446744073709551616 ∧
    m.blocks < 18446744073709551616 ∧
    m.atime_sec < 18446744073709551616 ∧
    m.atime_nsec < 18446744073709551616 ∧
    m.mtime_sec < 18446744073709551616 ∧
    m.mtime_nsec < 18446744073709551616 ∧
    m.ctime_sec < 18446744073709551616 ∧
    m.ctime_nsec < 18446744073709551616 ∧
    m.btime_sec < 18446744073709551616 ∧
    m.btime_nsec < 18446744073709551616 ∧
    m.gen < 18446744073709551616 ∧
    m.data_version < 18446744073709551616

structure Rstatfs where
  size : Nat
  typ : MessageType
  tag : Nat
  fstype : Nat
  bsize : Nat
  blocks : Nat
  bfree : Nat
  bavail : Nat
  files : Nat
  ffree : Nat
  fsid : Nat
  namelen : Nat
  deriving DecidableEq, Repr

def Rstatfs.new (fstype bsize blocks bfree bavail files ffree fsid
    namelen : Nat) : Rstatfs :=
  { size := (4 + 1 + 2 + 4 + 4 + 8 + 8 + 8 + 8 + 8 + 8 + 4) % 4294967296
    typ := .Rstatfs
    tag := 0
    fstype := fstype
    bsize := bsize
    blocks := blocks
    bfree := bfree
    bavail := bavail
    files := files
    ffree := ffree
    fsid := fsid
    namelen := namelen }

def encRstatfs (m : Rstatfs) : List Nat :=
  u32le m.size ++ u8le m.typ.toNat ++ u16le m.tag ++ u32le m.fstype ++
    u32le m.bsize ++ u64le m.blocks ++ u64le m.bfree ++ u64le m.bavail ++
    u64le m.files ++ u64le m.ffree ++ u64le m.fsid ++ u32le m.namelen

def parseRstatfs (l : List Nat) : Option (Rstatfs × List Nat) :=
  pbind (rdU32 l) fun sz l =>
  pbind (rdMT l) fun t l =>
  pbind (rdU16 l) fun tg l =>
  pbind (rdU32 l) fun ft l =>
  pbind (rdU32 l) fun bs l =>
  pbind (rdU64 l) fun bl l =>
  pbind (rdU64 l) fun bf l =>
  pbind (rdU64 l) fun ba l =>
  pbind (rdU64 l) fun fi l =>
  pbind (rdU64 l) fun ff l =>
  pbind (rdU64 l) fun fs l =>
  pbind (rdU32 l) fun nl l =>
  some (⟨sz, t, tg, ft, bs, bl, bf, ba, fi, ff, fs, nl⟩, l)

def Rstatfs.wf (m : Rstatfs) : Prop :=
  m.size < 4294967296 ∧ m.tag < 65536 ∧ m.fstype < 4294967296 ∧
    m.bsize < 4294967296 ∧ m.blocks < 18446744073709551616 ∧
    m.bfree < 18446744073709551616 ∧ m.bavail < 18446744073709551616 ∧
    m.files < 18446744073709551616 ∧ m.ffree < 18446744073709551616 ∧
    m.fsid < 18446744073709551616 ∧ m.namelen < 4294967296

structure Tattach where
  size : Nat
  typ : MessageType
  tag : Nat
  fid : Nat
  afid : Nat
  uname : List Nat
  aname : List Nat
  n_uname : Nat
  deriving DecidableEq, Repr

def Tattach.new (fid afid : Nat) (uname aname : List Nat) (n_uname : Nat) :
    Tattach :=
  { size := (4 + 1 + 2 + 4 + 4 + 2 + uname.length + 2 + aname.length + 4) %
      4294967296
    typ := .Tattach
    tag := 0
    fid := fid
    afid := afid
    uname := uname
    aname := aname
    n_uname := n_uname }

def encTattach (m : Tattach) : List Nat :=
  u32le m.size ++ u8le m.typ.toNat ++ u16le m.tag ++ u32le m.fid ++
    u32le m.afid ++ encStr16 m.uname ++ encStr16 m.aname ++ u32le m.n_uname

def parseTattach (l : List Nat) : Option (Tattach × List Nat) :=
  pbind (rdU32 l) fun sz l =>
  pbind (rdMT l) fun t l =>
  pbind (rdU16 l) fun tg l =>
  pbind (rdU32 l) fun f l =>
  pbind (rdU32 l) fun af l =>
  pbind (rdStr16 l) fun un l =>
  pbind (rdStr16 l) fun an l =>
  pbind (rdU32 l) fun nu l =>
  some (⟨sz, t, tg, f, af, un, an, nu⟩, l)

def Tattach.wf (m : Tattach) : Prop :=
  m.size < 4294967296 ∧ m.tag < 65536 ∧ m.fid < 4294967296 ∧
    m.afid < 4294967296 ∧ m.uname.length < 65536 ∧
    m.aname.length < 65536 ∧ m.n_uname < 4294967296

structure Rattach where
  size : Nat
  typ : MessageType
  tag : Nat
  qid : Qid
  deriving DecidableEq, Repr

def Rattach.new (qid : Qid) : Rattach :=
  { size := (4 + 1 + 2 + 1 + 4 + 8) % 4294967296
    typ := .Rattach
    tag := 0
    qid := qid }

def encRattach (m : Rattach) : List Nat :=
  u32le m.size ++ u8le m.typ.toNat ++ u16le m.tag ++ encQid m.qid

def parseRattach (l : List Nat) : Option (Rattach × List Nat) :=
  pbind (rdU32 l) fun sz l =>
  pbind (rdMT l) fun t l =>
  pbind (rdU16 l) fun tg l =>
  pbind (rdQid l) fun q l =>
  some (⟨sz, t, tg, q⟩, l)

def Rattach.wf (m : Rattach) : Prop :=
  m.size < 4294967296 ∧ m.tag < 65536 ∧ m.qid.wf

structure Rlopen where
  size : Nat
  typ : MessageType
  tag : Nat
  qid : Qid
  iounit : Nat
  deriving DecidableEq, Repr

def Rlopen.new (qid : Qid) (iounit : Nat) : Rlopen :=
  { size := (4 + 1 + 2 + 1 + 4 + 8 + 4) % 4294967296
    typ := .Rlopen
    tag := 0
    qid := qid
    iounit := iounit }

def encRlopen (m : Rlopen) : List Nat :=
  u32le m.size ++ u8le m.typ.toNat ++ u16le m.tag ++ encQid m.qid ++
    u32le m.iounit

def parseRlopen (l : List Nat) : Option (Rlopen × List Nat) :=
  pbind (rdU32 l) fun sz l =>
  pbind (rdMT l) fun t l =>
  pbind (rdU16 l) fun tg l =>
  pbind (rdQid l) fun q l =>
  pbind (rdU32 l) fun io l =>
  some (⟨sz, t, tg, q, io⟩, l)

def Rlopen.wf (m : Rlopen) : Prop :=
  m.size < 4294967296 ∧ m.tag < 65536 ∧ m.qid.wf ∧ m.iounit < 4294967296

/-! Twalk carries a vector of Wname records; a Wname serializes as just its
str_lv16 string, so the model stores the byte strings directly. -/

structure Twalk where
  size : Nat
  typ : MessageType
  tag : Nat
  fid : Nat
  newfid : Nat
  wname : List (List Nat)
  deriving DecidableEq, Repr

/-- The Rust constructor folds the per-element size 2 + len over the list. -/
def Twalk.wnameSz (wname : List (List Nat)) : Nat :=
  (wname.map (fun x => 2 + x.length)).sum

def Twalk.new (fid newfid : Nat) (wname : List (List Nat)) : Twalk :=
  { size := (4 + 1 + 2 + 4 + 4 + 2 + Twalk.wnameSz wname) % 4294967296
    typ := .Twalk
    tag := 0
    fid := fid
    newfid := newfid
    wname := wname }

def encTwalk (m : Twalk) : List Nat :=
  u32le m.size ++ u8le m.typ.toNat ++ u16le m.tag ++ u32le m.fid ++
    u32le m.newfid ++ u16le m.wname.length ++ encList encStr16 m.wname

def parseTwalk (l : List Nat) : Option (Twalk × List Nat) :=
  pbind (rdU32 l) fun sz l =>
  pbind (rdMT l) fun t l =>
  pbind (rdU16 l) fun tg l =>
  pbind (rdU32 l) fun f l =>
  pbind (rdU32 l) fun nf l =>
  pbind (rdU16 l) fun n l =>
  pbind (rdCount rdStr16 n l) fun ws l =>
  some (⟨sz, t, tg, f, nf, ws⟩, l)

def Twalk.wf (m : Twalk) : Prop :=
  m.size < 4294967296 ∧ m.tag < 65536 ∧ m.fid < 4294967296 ∧
    m.newfid < 4294967296 ∧ m.wname.length < 65536 ∧
    ∀ w ∈ m.wname, w.length < 65536

structure Rwalk where
  size : Nat
  typ : MessageType
  tag : Nat
  wname : List Qid
  deriving DecidableEq, Repr

def Rwalk.new (wname : List Qid) : Rwalk :=
  { size := (4 + 1 + 2 + 2 + wname.length * 13) % 4294967296
    typ := .Rwalk
    tag := 0
    wname := wname }

def encRwalk (m : Rwalk) : List Nat :=
  u32le m.size ++ u8le m.typ.toNat ++ u16le m.tag ++
    u16le m.wname.length ++ encList encQid m.wname

def parseRwalk (l : List Nat) : Option (Rwalk × List Nat) :=
  pbind (rdU32 l) fun sz l =>
  pbind (rdMT l) fun t l =>
  pbind (rdU16 l) fun tg l =>
  pbind (rdU16 l) fun n l =>
  pbind (rdCount rdQid n l) fun qs l =>
  some (⟨sz, t, tg, qs⟩, l)

def Rwalk.wf (m : Rwalk) : Prop :=
  m.size < 4294967296 ∧ m.tag < 65536 ∧ m.wname.length < 65536 ∧
    ∀ q ∈ m.wname, q.wf

structure Rread where
  size : Nat
  typ : MessageType
  tag : Nat
  data : List Nat
  deriving DecidableEq, Repr

def Rread.new (data : List Nat) : Rread :=
  { size := (4 + 1 + 2 + 4 + data.length) % 4294967296
    typ := .Rread
    tag := 0
    data := data }

def encRread (m : Rread) : List Nat :=
  u32le m.size ++ u8le m.typ.toNat ++ u16le m.tag ++
    u32le m.data.length ++ m.data

def parseRread (l : List Nat) : Option (Rread × List Nat) :=
  pbind (rdU32 l) fun sz l =>
  pbind (rdMT l) fun t l =>
  pbind (rdU16 l) fun tg l =>
  pbind (rdU32 l) fun n l =>
  pbind (rdBytes n l) fun d l =>
  some (⟨sz, t, tg, d⟩, l)

def Rread.wf (m : Rread) : Prop :=
  m.size < 4294967296 ∧ m.tag < 65536 ∧ m.data.length < 4294967296

structure Twrite where
  size : Nat
  typ : MessageType
  tag : Nat
  fid : Nat
  offset : Nat
  data : List Nat
  deriving DecidableEq, Repr

def Twrite.new (data : List Nat) (fid offset : Nat) : Twrite :=
  { size := (4 + 1 + 2 + 4 + 8 + 4 + data.length) % 4294967296
    typ := .Twrite
    tag := 0
    fid := fid
    offset := offset
    data := data }

def encTwrite (m : Twrite) : List Nat :=
  u32le m.size ++ u8le m.typ.toNat ++ u16le m.tag ++ u32le m.fid ++
    u64le m.offset ++ u32le m.data.length ++ m.data

def parseTwrite (l : List Nat) : Option (Twrite × List Nat) :=
  pbind (rdU32 l) fun sz l =>
  pbind (rdMT l) fun t l =>
  pbind (rdU16 l) fun tg l =>
  pbind (rdU32 l) fun f l =>
  pbind (rdU64 l) fun o l =>
  pbind (rdU32 l) fun n l =>
  pbind (rdBytes n l) fun d l =>
  some (⟨sz, t, tg, f, o, d⟩, l)

def Twrite.wf (m : Twrite) : Prop :=
  m.size < 4294967296 ∧ m.tag < 65536 ∧ m.fid < 4294967296 ∧
    m.offset < 18446744073709551616 ∧ m.data.length < 4294967296

/-! ## Dirent and Rreaddir -/

structure Dirent where
  qid : Qid
  offset : Nat
  typ : Nat
  name : List Nat
  deriving DecidableEq, Repr

/-- WireSize for Dirent: 13-byte qid, u64 offset, u8 typ, lv16 name. -/
def Dirent.wireSize (d : Dirent) : Nat :=
  1 + 4 + 8 + 8 + 1 + 2 + d.name.length

def encDirent (d : Dirent) : List Nat :=
  encQid d.qid ++ u64le d.offset ++ u8le d.typ ++ encStr16 d.name

def parseDirent (l : List Nat) : Option (Dirent × List Nat) :=
  pbind (rdQid l) fun q l =>
  pbind (rdU64 l) fun o l =>
  pbind (rdU8 l) fun t l =>
  pbind (rdStr16 l) fun nm l =>
  some (⟨q, o, t, nm⟩, l)

def Dirent.wf (d : Dirent) : Prop :=
  d.qid.wf ∧ d.offset < 18446744073709551616 ∧ d.typ < 256 ∧
    d.name.length < 65536

instance (d : Dirent) : Decidable d.wf := by unfold Dirent.wf; infer_instance

/-- Parse Dirents packed back to back until the slice is exhausted; the
fuel argument (instantiated with the slice length) bounds the recursion. -/
def parseDirentsAux : Nat → List Nat → Option (List Dirent)
  | _, [] => some []
  | 0, _ :: _ => none
  | fuel + 1, a :: l =>
    pbind (parseDirent (a :: l)) fun d rest =>
    obind (parseDirentsAux fuel rest) fun ds =>
    some (d :: ds)

def parseDirents (l : List Nat) : Option (List Dirent) :=
  parseDirentsAux l.length l

structure Rreaddir where
  size : Nat
  typ : MessageType
  tag : Nat
  data : List Dirent
  deriving DecidableEq, Repr

/-- The Rust constructor folds Dirent::wire_size over the vector. -/
def Rreaddir.dataSz (data : List Dirent) : Nat :=
  (data.map Dirent.wireSize).sum

def Rreaddir.new (data : List Dirent) : Rreaddir :=
  { size := (4 + 1 + 2 + 4 + Rreaddir.dataSz data) % 4294967296
    typ := .Rreaddir
    tag := 0
    data := data }

/-- vec_lv32b: u32 byte-count prefix, then the packed element encodings. -/
def encRreaddir (m : Rreaddir) : List Nat :=
  u32le m.size ++ u8le m.typ.toNat ++ u16le m.tag ++
    u32le (encList encDirent m.data).length ++ encList encDirent m.data

def parseRreaddir (l : List Nat) : Option (Rreaddir × List Nat) :=
  pbind (rdU32 l) fun sz l =>
  pbind (rdMT l) fun t l =>
  pbind (rdU16 l) fun tg l =>
  pbind (rdU32 l) fun n l =>
  pbind (rdBytes n l) fun slice l =>
  obind (parseDirents slice) fun ds =>
  some (⟨sz, t, tg, ds⟩, l)

def Rreaddir.wf (m : Rreaddir) : Prop :=
  m.size < 4294967296 ∧ m.tag < 65536 ∧
    (encList encDirent m.data).length < 4294967296 ∧
    ∀ d ∈ m.data, d.wf

/-! ## Round-trip lemmas for the vector combinators -/

theorem rdCount_encList {f : List Nat → Option (α × List Nat)}
    {g : α → List Nat} (xs : List α) (r : List Nat) :
    (∀ x ∈ xs, ∀ r2, f (g x ++ r2) = some (x, r2)) →
    rdCount f xs.length (encList g xs ++ r) = some (xs, r) := by
  induction xs with
  | nil => intro _; rfl
  | cons x xs ih =>
    intro h
    simp only [List.length_cons, encList, List.append_assoc, rdCount]
    rw [h x (List.mem_cons_self x xs), pbind_some,
      ih fun a ha r2 => h a (List.mem_cons_of_mem x ha) r2, pbind_some]

theorem encDirent_length (d : Dirent) :
    (encDirent d).length = 24 + d.name.length := by
  simp [encDirent, encQid, u8le, u32le, u64le, encStr16_length]
  omega

theorem parseDirent_enc {d : Dirent} (h : d.wf) (r : List Nat) :
    parseDirent (encDirent d ++ r) = some (d, r) := by
  obtain ⟨h1, h2, h3, h4⟩ := h
  simp only [parseDirent, encDirent, List.append_assoc, rdQid_enc h1,
    pbind_some, rdU64_enc_lt h2, rdU8_enc_lt h3, rdStr16_enc h4]

theorem parseDirentsAux_eq_step (fuel : Nat) (l : List Nat) (hl : l ≠ []) :
    parseDirentsAux (fuel + 1) l =
      pbind (parseDirent l) fun d rest =>
      obind (parseDirentsAux fuel rest) fun ds => some (d :: ds) := by
  cases l with
  | nil => exact absurd rfl hl
  | cons a t => rfl

theorem parseDirentsAux_encList (ds : List Dirent) :
    ∀ fuel : Nat, (∀ d ∈ ds, d.wf) →
    (encList encDirent ds).length ≤ fuel →
    parseDirentsAux fuel (encList encDirent ds) = some ds := by
  induction ds with
  | nil => intro fuel _ _; cases fuel <;> rfl
  | cons d ds ih =>
    intro fuel hwf hlen
    have hcons : encList encDirent (d :: ds) =
        encDirent d ++ encList encDirent ds := rfl
    have hpos : 0 < (encList encDirent (d :: ds)).length := by
      rw [hcons]
      simp [encDirent_length d]
    obtain ⟨n, rfl⟩ : ∃ n, fuel = n + 1 := ⟨fuel - 1, by omega⟩
    have hne : encDirent d ++ encList encDirent ds ≠ [] := by
      intro hc
      have := congrArg List.length hc
      simp [encDirent_length d] at this
    rw [hcons, parseDirentsAux_eq_step n _ hne,
      parseDirent_enc (hwf d (List.mem_cons_self d ds)), pbind_some,
      ih n (fun a ha => hwf a (List.mem_cons_of_mem d ha))
        (by rw [hcons] at hlen; simp only [List.length_append] at hlen
            have := encDirent_length d; omega),
      obind_some]

theorem parseDirents_encList (ds : List Dirent) (h : ∀ d ∈ ds, d.wf) :
    parseDirents (encList encDirent ds) = some ds :=
  parseDirentsAux_encList ds _ h (Nat.le_refl _)

/-! ## Per-message decode-of-encode lemmas -/

theorem parseRlerror_enc {m : Rlerror} (h : m.wf) (r : List Nat) :
    parseRlerror (encRlerror m ++ r) = some (m, r) := by
  obtain ⟨h1, h2, h3⟩ := h
  simp only [parseRlerror, encRlerror, List.append_assoc, rdU32_enc_lt h1,
    rdMT_enc, rdU16_enc_lt h2, rdU32_enc_lt h3, pbind_some]

theorem parseVersion_enc {m : Version} (h : m.wf) (r : List Nat) :
    parseVersion (encVersion m ++ r) = some (m, r) := by
  obtain ⟨h1, h2, h3, h4⟩ := h
  simp only [parseVersion, encVersion, List.append_assoc, rdU32_enc_lt h1,
    rdMT_enc, rdU16_enc_lt h2, rdU32_enc_lt h3, rdStr16_enc h4, pbind_some]

theorem parseTclunk_enc {m : Tclunk} (h : m.wf) (r : List Nat) :
    parseTclunk (encTclunk m ++ r) = some (m, r) := by
  obtain ⟨h1, h2, h3⟩ := h
  simp only [parseTclunk, encTclunk, List.append_assoc, rdU32_enc_lt h1,
    rdMT_enc, rdU16_enc_lt h2, rdU32_enc_lt h3, pbind_some]

theorem parseRclunk_enc {m : Rclunk} (h : m.wf) (r : List Nat) :
    parseRclunk (encRclunk m ++ r) = some (m, r) := by
  obtain ⟨h1, h2⟩ := h
  simp only [parseRclunk, encRclunk, List.append_assoc, rdU32_enc_lt h1,
    rdMT_enc, rdU16_enc_lt h2, pbind_some]

theorem parseTgetattr_enc {m : Tgetattr} (h : m.wf) (r : List Nat) :
    parseTgetattr (encTgetattr m ++ r) = some (m, r) := by
  obtain ⟨h1, h2, h3, h4⟩ := h
  simp only [parseTgetattr, encTgetattr, List.append_assoc, rdU32_enc_lt h1,
    rdMT_enc, rdU16_enc_lt h2, rdU32_enc_lt h3, rdU64_enc_lt h4, pbind_some]

theorem parseTstatfs_enc {m : Tstatfs} (h : m.wf) (r : List Nat) :
    parseTstatfs (encTstatfs m ++ r) = some (m, r) := by
  obtain ⟨h1, h2, h3⟩ := h
  simp only [parseTstatfs, encTstatfs, List.append_assoc, rdU32_enc_lt h1,
    rdMT_enc, rdU16_enc_lt h2, rdU32_enc_lt h3, pbind_some]

theorem parseTlopen_enc {m : Tlopen} (h : m.wf) (r : List Nat) :
    parseTlopen (encTlopen m ++ r) = some (m, r) := by
  obtain ⟨h1, h2, h3, h4⟩ := h
  simp only [parseTlopen, encTlopen, List.append_assoc, rdU32_enc_lt h1,
    rdMT_enc, rdU16_enc_lt h2, rdU32_enc_lt h3, rdU32_enc_lt h4, pbind_some]

theorem parseTreaddir_enc {m : Treaddir} (h : m.wf) (r : List Nat) :
    parseTreaddir (encTreaddir m ++ r) = some (m, r) := by
  obtain ⟨h1, h2, h3, h4, h5⟩ := h
  simp only [parseTreaddir, encTreaddir, List.append_assoc, rdU32_enc_lt h1,
    rdMT_enc, rdU16_enc_lt h2, rdU32_enc_lt h3, rdU64_enc_lt h4,
    rdU32_enc_lt h5, pbind_some]

theorem parseTread_enc {m : Tread} (h : m.wf) (r : List Nat) :
    parseTread (encTread m ++ r) = some (m, r) := by
  obtain ⟨h1, h2, h3, h4, h5⟩ := h
  simp only [parseTread, encTread, List.append_assoc, rdU32_enc_lt h1,
    rdMT_enc, rdU16_enc_lt h2, rdU32_enc_lt h3, rdU64_enc_lt h4,
    rdU32_enc_lt h5, pbind_some]

theorem parseRwrite_enc {m : Rwrite} (h : m.wf) (r : List Nat) :
    parseRwrite (encRwrite m ++ r) = some (m, r) := by
  obtain ⟨h1, h2, h3⟩ := h
  simp only [parseRwrite, encRwrite, List.append_assoc, rdU32_enc_lt h1,
    rdMT_enc, rdU16_enc_lt h2, rdU32_enc_lt h3, pbind_some]

theorem parseRgetattr_enc {m : Rgetattr} (h : m.wf) (r : List Nat) :
    parseRgetattr (encRgetattr m ++ r) = some (m, r) := by
  obtain ⟨h1, h2, h3, h4, h5, h6, h7, h8, h9, h10, h11, h12, h13, h14,
    h15, h16, h17, h18, h19, h20, h21, h22⟩ := h
  unfold parseRgetattr encRgetattr
  simp only [List.append_assoc]
  rw [rdU32_enc_lt h1, pbind_some, rdMT_enc, pbind_some, rdU16_enc_lt h2,
    pbind_some, rdU64_enc_lt h3, pbind_some, rdQid_enc h4, pbind_some,
    rdU32_enc_lt h5, pbind_some, rdU32_enc_lt h6, pbind_some,
    rdU32_enc_lt h7, pbind_some, rdU64_enc_lt h8, pbind_some,
    rdU64_enc_lt h9, pbind_some, rdU64_enc_lt h10, pbind_some,
    rdU64_enc_lt h11, pbind_some, rdU64_enc_lt h12, pbind_some,
    rdU64_enc_lt h13, pbind_some, rdU64_enc_lt h14, pbind_some,
    rdU64_enc_lt h15, pbind_some, rdU64_enc_lt h16, pbind_some,
    rdU64_enc_lt h17, pbind_some, rdU64_enc_lt h18, pbind_some,
    rdU64_enc_lt h19, pbind_some, rdU64_enc_lt h20, pbind_some,
    rdU64_enc_lt h21, pbind_some, rdU64_enc_lt h22, pbind_some]

theorem parseRstatfs_enc {m : Rstatfs} (h : m.wf) (r : List Nat) :
    parseRstatfs (encRstatfs m ++ r) = some (m, r) := by
  obtain ⟨h1, h2, h3, h4, h5, h6, h7, h8, h9, h10, h11⟩ := h
  simp only [parseRstatfs, encRstatfs, List.append_assoc, rdU32_enc_lt h1,
    rdMT_enc, rdU16_enc_lt h2, rdU32_enc_lt h3, rdU32_enc_lt h4,
    rdU64_enc_lt h5, rdU64_enc_lt h6, rdU64_enc_lt h7, rdU64_enc_lt h8,
    rdU64_enc_lt h9, rdU64_enc_lt h10, rdU32_enc_lt h11, pbind_some]

theorem parseTattach_enc {m : Tattach} (h : m.wf) (r : List Nat) :
    parseTattach (encTattach m ++ r) = some (m, r) := by
  obtain ⟨h1, h2, h3, h4, h5, h6, h7⟩ := h
  simp only [parseTattach, encTattach, List.append_assoc, rdU32_enc_lt h1,
    rdMT_enc, rdU16_enc_lt h2, rdU32_enc_lt h3, rdU32_enc_lt h4,
    rdStr16_enc h5, rdStr16_enc h6, rdU32_enc_lt h7, pbind_some]

theorem parseRattach_enc {m : Rattach} (h : m.wf) (r : List Nat) :
    parseRattach (encRattach m ++ r) = some (m, r) := by
  obtain ⟨h1, h2, h3⟩ := h
  simp only [parseRattach, encRattach, List.append_assoc, rdU32_enc_lt h1,
    rdMT_enc, rdU16_enc_lt h2, rdQid_enc h3, pbind_some]

theorem parseRlopen_enc {m : Rlopen} (h : m.wf) (r : List Nat) :
    parseRlopen (encRlopen m ++ r) = some (m, r) := by
  obtain ⟨h1, h2, h3, h4⟩ := h
  simp only [parseRlopen, encRlopen, List.append_assoc, rdU32_enc_lt h1,
    rdMT_enc, rdU16_enc_lt h2, rdQid_enc h3, rdU32_enc_lt h4, pbind_some]

theorem parseTwalk_enc {m : Twalk} (h : m.wf) (r : List Nat) :
    parseTwalk (encTwalk m ++ r) = some (m, r) := by
  obtain ⟨h1, h2, h3, h4, h5, h6⟩ := h
  simp only [parseTwalk, encTwalk, List.append_assoc, rdU32_enc_lt h1,
    rdMT_enc, rdU16_enc_lt h2, rdU32_enc_lt h3, rdU32_enc_lt h4,
    rdU16_enc_lt h5,
    rdCount_encList m.wname r fun w hw r2 => rdStr16_enc (h6 w hw) r2,
    pbind_some]

theorem parseRwalk_enc {m : Rwalk} (h : m.wf) (r : List Nat) :
    parseRwalk (encRwalk m ++ r) = some (m, r) := by
  obtain ⟨h1, h2, h3, h4⟩ := h
  simp only [parseRwalk, encRwalk, List.append_assoc, rdU32_enc_lt h1,
    rdMT_enc, rdU16_enc_lt h2, rdU16_enc_lt h3,
    rdCount_encList m.wname r fun q hq r2 => rdQid_enc (h4 q hq) r2,
    pbind_some]

theorem parseRread_enc {m : Rread} (h : m.wf) (r : List Nat) :
    parseRread (encRread m ++ r) = some (m, r) := by
  obtain ⟨h1, h2, h3⟩ := h
  simp only [parseRread, encRread, List.append_assoc, rdU32_enc_lt h1,
    rdMT_enc, rdU16_enc_lt h2, rdU32_enc_lt h3, rdBytes_enc, pbind_some]

theorem parseTwrite_enc {m : Twrite} (h : m.wf) (r : List Nat) :
    parseTwrite (encTwrite m ++ r) = some (m, r) := by
  obtain ⟨h1, h2, h3, h4, h5⟩ := h
  simp only [parseTwrite, encTwrite, List.append_assoc, rdU32_enc_lt h1,
    rdMT_enc, rdU16_enc_lt h2, rdU32_enc_lt h3, rdU64_enc_lt h4,
    rdU32_enc_lt h5, rdBytes_enc, pbind_some]

theorem parseRreaddir_enc {m : Rreaddir} (h : m.wf) (r : List Nat) :
    parseRreaddir (encRreaddir m ++ r) = some (m, r) := by
  obtain ⟨h1, h2, h3, h4⟩ := h
  simp only [parseRreaddir, encRreaddir, List.append_assoc, rdU32_enc_lt h1,
    rdMT_enc, rdU16_enc_lt h2, rdU32_enc_lt h3, rdBytes_enc,
    parseDirents_encList m.data h4, pbind_some, obind_some]

/-! ## Encoded lengths -/

theorem encList_length_const {g : α → List Nat} {c : Nat}
    (hg : ∀ x, (g x).length = c) (xs : List α) :
    (encList g xs).length = c * xs.length := by
  induction xs with
  | nil => simp [encList]
  | cons x xs ih =>
    simp [encList, ih, hg x]
    ring

theorem encRlerror_length (m : Rlerror) : (encRlerror m).length = 11 := by
  simp [encRlerror, u32le, u8le, u16le]

theorem encVersion_length (m : Version) :
    (encVersion m).length = 13 + m.version.length := by
  simp [encVersion, u32le, u8le, u16le, encStr16_length]
  omega

theorem encTclunk_length (m : Tclunk) : (encTclunk m).length = 11 := by
  simp [encTclunk, u32le, u8le, u16le]

theorem encRclunk_length (m : Rclunk) : (encRclunk m).length = 7 := by
  simp [encRclunk, u32le, u8le, u16le]

theorem encTgetattr_length (m : Tgetattr) : (encTgetattr m).length = 19 := by
  simp [encTgetattr, u32le, u8le, u16le, u64le]

theorem encTstatfs_length (m : Tstatfs) : (encTstatfs m).length = 11 := by
  simp [encTstatfs, u32le, u8le, u16le]

theorem encTlopen_length (m : Tlopen) : (encTlopen m).length = 15 := by
  simp [encTlopen, u32le, u8le, u16le]

theorem encTreaddir_length (m : Treaddir) : (encTreaddir m).length = 23 := by
  simp [encTreaddir, u32le, u8le, u16le, u64le]

theorem encTread_length (m : Tread) : (encTread m).length = 23 := by
  simp [encTread, u32le, u8le, u16le, u64le]

theorem encRwrite_length (m : Rwrite) : (encRwrite m).length = 11 := by
  simp [encRwrite, u32le, u8le, u16le]

theorem encRgetattr_length (m : Rgetattr) : (encRgetattr m).length = 160 := by
  simp [encRgetattr, u32le, u8le, u16le, u64le, encQid_length]

theorem encRstatfs_length (m : Rstatfs) : (encRstatfs m).length = 67 := by
  simp [encRstatfs, u32le, u8le, u16le, u64le]

theorem encTattach_length (m : Tattach) :
    (encTattach m).length = 23 + m.uname.length + m.aname.length := by
  simp [encTattach, u32le, u8le, u16le, encStr16_length]
  omega

theorem encRattach_length (m : Rattach) : (encRattach m).length = 20 := by
  simp [encRattach, u32le, u8le, u16le, encQid_length]

theorem encRlopen_length (m : Rlopen) : (encRlopen m).length = 24 := by
  simp [encRlopen, u32le, u8le, u16le, encQid_length]

theorem encTwalk_length (m : Twalk) :
    (encTwalk m).length = 17 + Twalk.wnameSz m.wname := by
  simp [encTwalk, u32le, u8le, u16le, encList_length, encStr16_length,
    Twalk.wnameSz]
  omega

theorem encRwalk_length (m : Rwalk) :
    (encRwalk m).length = 9 + 13 * m.wname.length := by
  simp [encRwalk, u32le, u8le, u16le,
    encList_length_const encQid_length m.wname]
  omega

theorem encRread_length (m : Rread) :
    (encRread m).length = 11 + m.data.length := by
  simp [encRread, u32le, u8le, u16le]
  omega

theorem encTwrite_length (m : Twrite) :
    (encTwrite m).length = 23 + m.data.length := by
  simp [encTwrite, u32le, u8le, u16le, u64le]
  omega

theorem encList_encDirent_length (ds : List Dirent) :
    (encList encDirent ds).length = Rreaddir.dataSz ds := by
  unfold Rreaddir.dataSz
  rw [encList_length]
  congr 1
  apply List.map_congr_left
  intro d _
  rw [encDirent_length]
  simp [Dirent.wireSize]

theorem encRreaddir_length (m : Rreaddir) :
    (encRreaddir m).length = 11 + Rreaddir.dataSz m.data := by
  simp [encRreaddir, u32le, u8le, u16le, encList_encDirent_length]
  omega

/-! ## read_msg (src/p9kp/src/lib.rs, identical copy in src/p9kp/src/client.rs)

The Rust function is generic in the expected response type R; the model
takes R's opcode (R::message_type()) and R's deserializer as parameters.
The ServerError variant carries the decoded Rlerror; the strerror text
attached by the Rust code is host-environment output and is not modelled. -/

inductive ReadMsgResult (R : Type)
  | ok (r : R)
  | serverError (e : Rlerror)
  | unexpected (expected got : MessageType)
  | decodeFail
  deriving DecidableEq, Repr

def readMsg (mtype : MessageType)
    (parse : List Nat → Option (R × List Nat)) (data : List Nat) :
    ReadMsgResult R :=
  match parsePartial data with
  | none => .decodeFail
  | some (p, _) =>
    if p.typ ≠ mtype then
      if p.typ = .Rlerror then
        match parseRlerror data with
        | some (e, _) => .serverError e
        | none => .decodeFail
      else .unexpected mtype p.typ
    else
      match parse data with
      | some (r, _) => .ok r
      | none => .decodeFail

/-! ## Pull driver (src/p9kp/src/bin/p9kp.rs)

The driver is modelled against a scripted server: each send records the
request and consumes the next scripted reply; a reply of the wrong kind
(or an exhausted script) makes the send fail, collapsing the Rust error
path (Rlerror / UnexpectedReturnType / transport error) into failure.
Loops carry explicit fuel; fuel exhaustion reports failure. -/

inductive Req
  | version (m : Version)
  | tattach (m : Tattach)
  | twalk (m : Twalk)
  | tlopen (m : Tlopen)
  | treaddir (m : Treaddir)
  | tread (m : Tread)
  deriving DecidableEq, Repr

inductive Reply
  | rversion (m : Version)
  | rattach
  | rwalk
  | rlopen
  | rreaddir (data : List Dirent)
  | rread (data : List Nat)
  | rlerror (ecode : Nat)
  deriving DecidableEq, Repr

structure St where
  script : List Reply
  reqs : List Req
  nextfid : Nat
  deriving DecidableEq, Repr

def St.push (s : St) (r : Req) : St := { s with reqs := s.reqs ++ [r] }

def sendVersion (s : St) (m : Version) : St × Bool :=
  let s := s.push (.version m)
  match s.script with
  | .rversion _ :: rest => ({ s with script := rest }, true)
  | _ => (s, false)

def sendTattach (s : St) (m : Tattach) : St × Bool :=
  let s := s.push (.tattach m)
  match s.script with
  | .rattach :: rest => ({ s with script := rest }, true)
  | _ => (s, false)

def sendTwalk (s : St) (m : Twalk) : St × Bool :=
  let s := s.push (.twalk m)
  match s.script with
  | .rwalk :: rest => ({ s with script := rest }, true)
  | _ => (s, false)

def sendTlopen (s : St) (m : Tlopen) : St × Bool :=
  let s := s.push (.tlopen m)
  match s.script with
  | .rlopen :: rest => ({ s with script := rest }, true)
  | _ => (s, false)

def sendTreaddir (s : St) (m : Treaddir) : St × Option (List Dirent) :=
  let s := s.push (.treaddir m)
  match s.script with
  | .rreaddir ds :: rest => ({ s with script := rest }, some ds)
  | _ => (s, none)

def sendTread (s : St) (m : Tread) : St × Option (List Nat) :=
  let s := s.push (.tread m)
  match s.script with
  | .rread d :: rest => ({ s with script := rest }, some d)
  | _ => (s, none)

/-- libc DT_DIR. -/
def DT_DIR : Nat := 4

/-- UTF-8 bytes of ".". -/
def dotB : List Nat := [0x2e]

/-- UTF-8 bytes of "..". -/
def dotdotB : List Nat := [0x2e, 0x2e]

/-- UTF-8 bytes of "root". -/
def unameRootB : List Nat := [0x72, 0x6f, 0x6f, 0x74]

/-- UTF-8 bytes of "/todo". -/
def anameTodoB : List Nat := [0x2f, 0x74, 0x6f, 0x64, 0x6f]

/-- UTF-8 bytes of "/". -/
def slashB : List Nat := [0x2f]

/-- NO_FID = NO_AFID = NO_NUNAME = !0u32. -/
def NO_AFID : Nat := 4294967295

def NO_NUNAME : Nat := 4294967295

/-- OpenFlags::RdOnly as u32. -/
def RD_ONLY : Nat := 0

/-- The read loop of copyfile: Tread(newfid, offset, chunk-11) until an
empty Rread; offset advances by the payload length. Local file writes are
out of scope and not recorded. -/
def readLoop : Nat → Nat → Nat → Nat → St → St × Bool
  | 0, _, _, _, s => (s, false)
  | fuel + 1, newfid, offset, chunk, s =>
    let r := Tread.new newfid offset (chunk - 11)
    match sendTread s r with
    | (s, none) => (s, false)
    | (s, some d) =>
      if d = [] then (s, true)
      else readLoop fuel newfid (offset + d.length) chunk s

/-- The two mutually recursive pieces of copydir: the for-loop over the
entries of one Rreaddir, and the readdir loop of the directory branch. -/
inductive DriveCall
  | entries (es : List Dirent) (fid chunk : Nat)
  | dir (newfid offset chunk : Nat)

/-- Interpreter for both copydir pieces, structurally recursive on fuel;
for the dir call note the final break compares the size field of the
Treaddir request just sent (a constant 23) against chunk_size. -/
def drive : Nat → DriveCall → St → St × Bool
  | _, .entries [] _ _, s => (s, true)
  | 0, .entries (_ :: _) _ _, s => (s, false)
  | 0, .dir _ _ _, s => (s, false)
  | fuel + 1, .entries (e :: rest) fid chunk, s =>
    if e.qid.typ = QidType.Dir ∨ e.typ = DT_DIR then
      if e.name = dotB ∨ e.name = dotdotB then
        drive fuel (.entries rest fid chunk) s
      else
        let newfid := s.nextfid
        let w := Twalk.new fid newfid [e.name]
        let s := { s with nextfid := s.nextfid + 1 }
        match sendTwalk s w with
        | (s, false) => (s, false)
        | (s, true) =>
          match sendTlopen s (Tlopen.new newfid RD_ONLY) with
          | (s, false) => (s, false)
          | (s, true) =>
            match drive fuel (.dir newfid 0 chunk) s with
            | (s, false) => (s, false)
            | (s, true) => drive fuel (.entries rest fid chunk) s
    else if e.qid.typ = QidType.File then
      let newfid := s.nextfid
      let w := Twalk.new fid newfid [e.name]
      let s := { s with nextfid := s.nextfid + 1 }
      match sendTwalk s w with
      | (s, false) => (s, false)
      | (s, true) =>
        match sendTlopen s (Tlopen.new newfid RD_ONLY) with
        | (s, false) => (s, false)
        | (s, true) =>
          match readLoop fuel newfid 0 chunk s with
          | (s, false) => (s, false)
          | (s, true) => drive fuel (.entries rest fid chunk) s
    else
      drive fuel (.entries rest fid chunk) s
  | fuel + 1, .dir newfid offset chunk, s =>
    let chunkSize := chunk - 11
    let readdir := Treaddir.new newfid offset chunkSize
    match sendTreaddir s readdir with
    | (s, none) => (s, false)
    | (s, some d) =>
      if d = [] then (s, true)
      else
        match drive fuel (.entries d newfid chunk) s with
        | (s, false) => (s, false)
        | (s, true) =>
          if readdir.size < chunkSize then (s, true)
          else drive fuel (.dir newfid (offset + d.length) chunk) s

/-- The for-loop body of copydir over the entries of one Rreaddir. -/
def copyEntries (fuel : Nat) (es : List Dirent) (fid chunk : Nat)
    (s : St) : St × Bool :=
  drive fuel (.entries es fid chunk) s

/-- The readdir loop inside copydir's directory branch. -/
def dirLoop (fuel newfid offset chunk : Nat) (s : St) : St × Bool :=
  drive fuel (.dir newfid offset chunk) s

/-- The top-level readdir loop of run: same shape as dirLoop, on fid 2,
with the same request-size break. -/
def runLoop : Nat → Nat → Nat → St → St × Bool
  | 0, _, _, s => (s, false)
  | fuel + 1, chunk, offset, s =>
    let maxMsgSize := chunk - 11
    let readdir := Treaddir.new 2 offset maxMsgSize
    match sendTreaddir s readdir with
    | (s, none) => (s, false)
    | (s, some d) =>
      if d = [] then (s, true)
      else
        match copyEntries fuel d 2 chunk s with
        | (s, false) => (s, false)
        | (s, true) =>
          if readdir.size < maxMsgSize then (s, true)
          else runLoop fuel chunk (offset + d.length) s

/-- The Tversion request run sends: Version::new(P9Version::V2000L) with
its msize field then overwritten by the configured chunk size. -/
def verRequest (chunk : Nat) : Version :=
  { Version.new P9Version.V2000L with msize := chunk }

/-- run (bin/p9kp.rs): Tversion (msize overwritten with the configured
chunk size), Tattach, Twalk 1 to 2, Tlopen 2, then the readdir loop. -/
def runModel (chunk : Nat) (script : List Reply) (fuel : Nat) : St × Bool :=
  match sendVersion ⟨script, [], 3⟩ (verRequest chunk) with
  | (s, false) => (s, false)
  | (s, true) =>
    match sendTattach s
        (Tattach.new 1 NO_AFID unameRootB anameTodoB NO_NUNAME) with
    | (s, false) => (s, false)
    | (s, true) =>
      match sendTwalk s (Twalk.new 1 2 []) with
      | (s, false) => (s, false)
      | (s, true) =>
        match sendTlopen s (Tlopen.new 2 RD_ONLY) with
        | (s, false) => (s, false)
        | (s, true) => runLoop fuel chunk 0 s

/-! ## UnixClient::send write phase (src/p9kp/src/lib.rs)

try_write either accepts a prefix of the buffer (Ok n, after which the
loop breaks and send goes on to read the reply), reports WouldBlock (the
loop retries with the whole buffer), or fails. The events list scripts
the successive try_write outcomes; the result is the bytes that reached
the channel and whether send proceeded to the read phase. -/

inductive WriteEv
  | accepted (n : Nat)
  | wouldBlock
  | ioErr
  deriving DecidableEq, Repr

inductive WriteOutcome
  | proceedToRead
  | failed
  deriving DecidableEq, Repr

def writeLoop : List WriteEv → List Nat → List Nat × WriteOutcome
  | [], _ => ([], .failed)
  | .accepted n :: _, out => (out.take n, .proceedToRead)
  | .wouldBlock :: evs, out => writeLoop evs out
  | .ioErr :: _, _ => ([], .failed)

/-! ## Request-trace monotonicity: every model step only appends requests -/

theorem sendVersion_reqs (s : St) (m : Version) :
    ((sendVersion s m).1).reqs = s.reqs ++ [.version m] := by
  unfold sendVersion St.push
  cases hs : s.script with
  | nil => rfl
  | cons r rest => cases r <;> rfl

theorem sendTattach_reqs (s : St) (m : Tattach) :
    ((sendTattach s m).1).reqs = s.reqs ++ [.tattach m] := by
  unfold sendTattach St.push
  cases hs : s.script with
  | nil => rfl
  | cons r rest => cases r <;> rfl

theorem sendTwalk_reqs (s : St) (m : Twalk) :
    ((sendTwalk s m).1).reqs = s.reqs ++ [.twalk m] := by
  unfold sendTwalk St.push
  cases hs : s.script with
  | nil => rfl
  | cons r rest => cases r <;> rfl

theorem sendTlopen_reqs (s : St) (m : Tlopen) :
    ((sendTlopen s m).1).reqs = s.reqs ++ [.tlopen m] := by
  unfold sendTlopen St.push
  cases hs : s.script with
  | nil => rfl
  | cons r rest => cases r <;> rfl

theorem sendTreaddir_reqs (s : St) (m : Treaddir) :
    ((sendTreaddir s m).1).reqs = s.reqs ++ [.treaddir m] := by
  unfold sendTreaddir St.push
  cases hs : s.script with
  | nil => rfl
  | cons r rest => cases r <;> rfl

theorem sendTread_reqs (s : St) (m : Tread) :
    ((sendTread s m).1).reqs = s.reqs ++ [.tread m] := by
  unfold sendTread St.push
  cases hs : s.script with
  | nil => rfl
  | cons r rest => cases r <;> rfl

theorem readLoop_reqs_mono :
    ∀ fuel nf off chunk s, ∃ t,
      ((readLoop fuel nf off chunk s).1).reqs = s.reqs ++ t := by
  intro fuel
  induction fuel with
  | zero => intro nf off chunk s; exact ⟨[], by simp [readLoop]⟩
  | succ n ih =>
    intro nf off chunk s
    simp only [readLoop]
    rcases h : sendTread s (Tread.new nf off (chunk - 11)) with ⟨s2, d⟩
    have hs2 : s2.reqs = s.reqs ++ [.tread (Tread.new nf off (chunk - 11))] := by
      have := sendTread_reqs s (Tread.new nf off (chunk - 11))
      rw [h] at this
      exact this
    cases d with
    | none => exact ⟨_, hs2⟩
    | some d =>
      by_cases hd : d = []
      · subst hd
        simp only [if_pos rfl]
        exact ⟨_, hs2⟩
      · simp only [if_neg hd]
        obtain ⟨t2, ht2⟩ := ih nf (off + d.length) chunk s2
        exact ⟨_, by rw [ht2, hs2, List.append_assoc]⟩





theorem drive_reqs_mono :
    ∀ fuel (c : DriveCall) (s : St), ∃ t,
      ((drive fuel c s).1).reqs = s.reqs ++ t := by
  intro fuel
  induction fuel with
  | zero =>
    intro c s
    rcases c with ⟨es, fid, chunk⟩ | ⟨nf, off, chunk⟩
    · cases es with
      | nil => exact ⟨[], by simp [drive]⟩
      | cons e rest => exact ⟨[], by simp [drive]⟩
    · exact ⟨[], by simp [drive]⟩
  | succ n ih =>
    intro c s
    rcases c with ⟨es, fid, chunk⟩ | ⟨nf, off, chunk⟩
    · cases es with
      | nil => exact ⟨[], by simp [drive]⟩
      | cons e rest =>
        simp only [drive]
        by_cases h1 : e.qid.typ = QidType.Dir ∨ e.typ = DT_DIR
        · rw [if_pos h1]
          by_cases h2 : e.name = dotB ∨ e.name = dotdotB
          · rw [if_pos h2]
            exact ih (.entries rest fid chunk) s
          · rw [if_neg h2]
            rcases hw : sendTwalk { s with nextfid := s.nextfid + 1 }
                (Twalk.new fid s.nextfid [e.name]) with ⟨s2, b⟩
            have hs2 : s2.reqs =
                s.reqs ++ [.twalk (Twalk.new fid s.nextfid [e.name])] := by
              have h := sendTwalk_reqs { s with nextfid := s.nextfid + 1 }
                (Twalk.new fid s.nextfid [e.name])
              rw [hw] at h
              exact h
            cases b with
            | false => exact ⟨_, hs2⟩
            | true =>
              dsimp only
              rcases ho : sendTlopen s2 (Tlopen.new s.nextfid RD_ONLY)
                with ⟨s3, b2⟩
              have hs3 : s3.reqs =
                  s2.reqs ++ [.tlopen (Tlopen.new s.nextfid RD_ONLY)] := by
                have h := sendTlopen_reqs s2 (Tlopen.new s.nextfid RD_ONLY)
                rw [ho] at h
                exact h
              cases b2 with
              | false => exact ⟨_, by rw [hs3, hs2, List.append_assoc]⟩
              | true =>
                dsimp only
                rcases hd : drive n (.dir s.nextfid 0 chunk) s3 with ⟨s4, b3⟩
                have hs4 : ∃ t, s4.reqs = s3.reqs ++ t := by
                  have h := ih (.dir s.nextfid 0 chunk) s3
                  rw [hd] at h
                  exact h
                obtain ⟨t4, ht4⟩ := hs4
                cases b3 with
                | false =>
                  have hfin : s4.reqs = s.reqs ++
                      ([Req.twalk (Twalk.new fid s.nextfid [e.name])] ++
                        ([Req.tlopen (Tlopen.new s.nextfid RD_ONLY)] ++
                          t4)) := by
                    rw [ht4, hs3, hs2]
                    simp [List.append_assoc]
                  exact ⟨_, hfin⟩
                | true =>
                  obtain ⟨t5, ht5⟩ := ih (.entries rest fid chunk) s4
                  have hfin : (drive n (.entries rest fid chunk) s4).1.reqs =
                      s.reqs ++
                      ([Req.twalk (Twalk.new fid s.nextfid [e.name])] ++
                        ([Req.tlopen (Tlopen.new s.nextfid RD_ONLY)] ++
                          (t4 ++ t5))) := by
                    rw [ht5, ht4, hs3, hs2]
                    simp [List.append_assoc]
                  exact ⟨_, hfin⟩
        · rw [if_neg h1]
          by_cases h3 : e.qid.typ = QidType.File
          · rw [if_pos h3]
            rcases hw : sendTwalk { s with nextfid := s.nextfid + 1 }
                (Twalk.new fid s.nextfid [e.name]) with ⟨s2, b⟩
            have hs2 : s2.reqs =
                s.reqs ++ [.twalk (Twalk.new fid s.nextfid [e.name])] := by
              have h := sendTwalk_reqs { s with nextfid := s.nextfid + 1 }
                (Twalk.new fid s.nextfid [e.name])
              rw [hw] at h
              exact h
            cases b with
            | false => exact ⟨_, hs2⟩
            | true =>
              dsimp only
              rcases ho : sendTlopen s2 (Tlopen.new s.nextfid RD_ONLY)
                with ⟨s3, b2⟩
              have hs3 : s3.reqs =
                  s2.reqs ++ [.tlopen (Tlopen.new s.nextfid RD_ONLY)] := by
                have h := sendTlopen_reqs s2 (Tlopen.new s.nextfid RD_ONLY)
                rw [ho] at h
                exact h
              cases b2 with
              | false => exact ⟨_, by rw [hs3, hs2, List.append_assoc]⟩
              | true =>
                dsimp only
                rcases hr : readLoop n s.nextfid 0 chunk s3 with ⟨s4, b3⟩
                have hs4 : ∃ t, s4.reqs = s3.reqs ++ t := by
                  have h := readLoop_reqs_mono n s.nextfid 0 chunk s3
                  rw [hr] at h
                  exact h
                obtain ⟨t4, ht4⟩ := hs4
                cases b3 with
                | false =>
                  have hfin : s4.reqs = s.reqs ++
                      ([Req.twalk (Twalk.new fid s.nextfid [e.name])] ++
                        ([Req.tlopen (Tlopen.new s.nextfid RD_ONLY)] ++
                          t4)) := by
                    rw [ht4, hs3, hs2]
                    simp [List.append_assoc]
                  exact ⟨_, hfin⟩
                | true =>
                  obtain ⟨t5, ht5⟩ := ih (.entries rest fid chunk) s4
                  have hfin : (drive n (.entries rest fid chunk) s4).1.reqs =
                      s.reqs ++
                      ([Req.twalk (Twalk.new fid s.nextfid [e.name])] ++
                        ([Req.tlopen (Tlopen.new s.nextfid RD_ONLY)] ++
                          (t4 ++ t5))) := by
                    rw [ht5, ht4, hs3, hs2]
                    simp [List.append_assoc]
                  exact ⟨_, hfin⟩
          · rw [if_neg h3]
            exact ih (.entries rest fid chunk) s
    · simp only [drive]
      rcases h : sendTreaddir s (Treaddir.new nf off (chunk - 11))
        with ⟨s2, d⟩
      have hs2 : s2.reqs =
          s.reqs ++ [.treaddir (Treaddir.new nf off (chunk - 11))] := by
        have h2 := sendTreaddir_reqs s (Treaddir.new nf off (chunk - 11))
        rw [h] at h2
        exact h2
      cases d with
      | none => exact ⟨_, hs2⟩
      | some d =>
        dsimp only
        by_cases hd : d = []
        · rw [if_pos hd]
          exact ⟨_, hs2⟩
        · rw [if_neg hd]
          rcases hc : drive n (.entries d nf chunk) s2 with ⟨s3, b⟩
          have hs3 : ∃ t, s3.reqs = s2.reqs ++ t := by
            have h3 := ih (.entries d nf chunk) s2
            rw [hc] at h3
            exact h3
          obtain ⟨t3, ht3⟩ := hs3
          cases b with
          | false => exact ⟨_, by rw [ht3, hs2, List.append_assoc]⟩
          | true =>
            dsimp only
            by_cases hsz :
                (Treaddir.new nf off (chunk - 11)).size < chunk - 11
            · rw [if_pos hsz]
              exact ⟨_, by rw [ht3, hs2, List.append_assoc]⟩
            · rw [if_neg hsz]
              obtain ⟨t4, ht4⟩ := ih (.dir nf (off + d.length) chunk) s3
              have hfin :
                  (drive n (.dir nf (off + d.length) chunk) s3).1.reqs =
                  s.reqs ++
                  ([Req.treaddir (Treaddir.new nf off (chunk - 11))] ++
                    (t3 ++ t4)) := by
                rw [ht4, ht3, hs2]
                simp [List.append_assoc]
              exact ⟨_, hfin⟩

theorem copyEntries_reqs_mono (fuel : Nat) (es : List Dirent)
    (fid chunk : Nat) (s : St) : ∃ t,
    ((copyEntries fuel es fid chunk s).1).reqs = s.reqs ++ t :=
  drive_reqs_mono fuel (.entries es fid chunk) s

theorem runLoop_reqs_mono :
    ∀ fuel chunk off s, ∃ t,
      ((runLoop fuel chunk off s).1).reqs = s.reqs ++ t := by
  intro fuel
  induction fuel with
  | zero => intro chunk off s; exact ⟨[], by simp [runLoop]⟩
  | succ n ih =>
    intro chunk off s
    simp only [runLoop]
    rcases h : sendTreaddir s (Treaddir.new 2 off (chunk - 11))
      with ⟨s2, d⟩
    have hs2 : s2.reqs =
        s.reqs ++ [.treaddir (Treaddir.new 2 off (chunk - 11))] := by
      have h2 := sendTreaddir_reqs s (Treaddir.new 2 off (chunk - 11))
      rw [h] at h2
      exact h2
    cases d with
    | none => exact ⟨_, hs2⟩
    | some d =>
      dsimp only
      by_cases hd : d = []
      · rw [if_pos hd]
        exact ⟨_, hs2⟩
      · rw [if_neg hd]
        rcases hc : copyEntries n d 2 chunk s2 with ⟨s3, b⟩
        have hs3 : ∃ t, s3.reqs = s2.reqs ++ t := by
          have h3 := copyEntries_reqs_mono n d 2 chunk s2
          rw [hc] at h3
          exact h3
        obtain ⟨t3, ht3⟩ := hs3
        cases b with
        | false => exact ⟨_, by rw [ht3, hs2, List.append_assoc]⟩
        | true =>
          dsimp only
          by_cases hsz :
              (Treaddir.new 2 off (chunk - 11)).size < chunk - 11
          · rw [if_pos hsz]
            exact ⟨_, by rw [ht3, hs2, List.append_assoc]⟩
          · rw [if_neg hsz]
            obtain ⟨t4, ht4⟩ := ih chunk (off + d.length) s3
            have hfin : (runLoop n chunk (off + d.length) s3).1.reqs =
                s.reqs ++
                ([Req.treaddir (Treaddir.new 2 off (chunk - 11))] ++
                  (t3 ++ t4)) := by
              rw [ht4, ht3, hs2]
              simp [List.append_assoc]
            exact ⟨_, hfin⟩

/-- Whatever the script, the first request recorded by the run model is
the Tversion whose msize was overwritten with the configured chunk. -/
theorem runModel_reqs_head (chunk : Nat) (script : List Reply)
    (fuel : Nat) : ∃ t,
    ((runModel chunk script fuel).1).reqs =
      Req.version (verRequest chunk) ::
        t := by
  unfold runModel
  rcases hv : sendVersion ⟨script, [], 3⟩ (verRequest chunk)
    with ⟨s1, b⟩
  have h1 : s1.reqs =
      [.version (verRequest chunk)] := by
    have h := sendVersion_reqs ⟨script, [], 3⟩ (verRequest chunk)
    rw [hv] at h
    exact h
  cases b with
  | false => exact ⟨[], h1⟩
  | true =>
    dsimp only
    rcases ha : sendTattach s1
        (Tattach.new 1 NO_AFID unameRootB anameTodoB NO_NUNAME)
      with ⟨s2, b2⟩
    have h2 : s2.reqs = s1.reqs ++
        [.tattach (Tattach.new 1 NO_AFID unameRootB anameTodoB
          NO_NUNAME)] := by
      have h := sendTattach_reqs s1
        (Tattach.new 1 NO_AFID unameRootB anameTodoB NO_NUNAME)
      rw [ha] at h
      exact h
    cases b2 with
    | false => exact ⟨_, by rw [h2, h1]; rfl⟩
    | true =>
      dsimp only
      rcases hw : sendTwalk s2 (Twalk.new 1 2 []) with ⟨s3, b3⟩
      have h3 : s3.reqs = s2.reqs ++ [.twalk (Twalk.new 1 2 [])] := by
        have h := sendTwalk_reqs s2 (Twalk.new 1 2 [])
        rw [hw] at h
        exact h
      cases b3 with
      | false => exact ⟨_, by rw [h3, h2, h1]; rfl⟩
      | true =>
        dsimp only
        rcases ho : sendTlopen s3 (Tlopen.new 2 RD_ONLY) with ⟨s4, b4⟩
        have h4 : s4.reqs = s3.reqs ++
            [.tlopen (Tlopen.new 2 RD_ONLY)] := by
          have h := sendTlopen_reqs s3 (Tlopen.new 2 RD_ONLY)
          rw [ho] at h
          exact h
        cases b4 with
        | false => exact ⟨_, by rw [h4, h3, h2, h1]; rfl⟩
        | true =>
          dsimp only
          obtain ⟨t, ht⟩ := runLoop_reqs_mono fuel chunk 0 s4
          exact ⟨_, by rw [ht, h4, h3, h2, h1]; rfl⟩

/-- When the scripted server answers the version exchange with any
Rversion reply at all, the second request recorded by the run model is
the fixed Tattach. -/
theorem runModel_second_req (chunk : Nat) (m : Version)
    (rest : List Reply) (fuel : Nat) : ∃ t,
    ((runModel chunk (Reply.rversion m :: rest) fuel).1).reqs =
      [Req.version (verRequest chunk),
       Req.tattach (Tattach.new 1 NO_AFID unameRootB anameTodoB
         NO_NUNAME)] ++ t := by
  unfold runModel
  have hv : sendVersion ⟨Reply.rversion m :: rest, [], 3⟩
      (verRequest chunk) =
      (⟨rest,
        [.version (verRequest chunk)],
        3⟩, true) := rfl
  rw [hv]
  dsimp only
  rcases ha : sendTattach
      ⟨rest,
        [.version (verRequest chunk)],
        3⟩
      (Tattach.new 1 NO_AFID unameRootB anameTodoB NO_NUNAME)
    with ⟨s2, b2⟩
  have h2 : s2.reqs =
      [Req.version (verRequest chunk),
       Req.tattach (Tattach.new 1 NO_AFID unameRootB anameTodoB
         NO_NUNAME)] := by
    have h := sendTattach_reqs
      ⟨rest,
        [.version (verRequest chunk)],
        3⟩
      (Tattach.new 1 NO_AFID unameRootB anameTodoB NO_NUNAME)
    rw [ha] at h
    exact h
  cases b2 with
  | false => exact ⟨[], by rw [h2]; rfl⟩
  | true =>
    dsimp only
    rcases hw : sendTwalk s2 (Twalk.new 1 2 []) with ⟨s3, b3⟩
    have h3 : s3.reqs = s2.reqs ++ [.twalk (Twalk.new 1 2 [])] := by
      have h := sendTwalk_reqs s2 (Twalk.new 1 2 [])
      rw [hw] at h
      exact h
    cases b3 with
    | false => exact ⟨_, by rw [h3, h2]⟩
    | true =>
      dsimp only
      rcases ho : sendTlopen s3 (Tlopen.new 2 RD_ONLY) with ⟨s4, b4⟩
      have h4 : s4.reqs = s3.reqs ++
          [.tlopen (Tlopen.new 2 RD_ONLY)] := by
        have h := sendTlopen_reqs s3 (Tlopen.new 2 RD_ONLY)
        rw [ho] at h
        exact h
      cases b4 with
      | false =>
        refine ⟨[.twalk (Twalk.new 1 2 []),
          .tlopen (Tlopen.new 2 RD_ONLY)], ?_⟩
        rw [h4, h3, h2]
        rfl
      | true =>
        dsimp only
        obtain ⟨t, ht⟩ := runLoop_reqs_mono fuel chunk 0 s4
        refine ⟨.twalk (Twalk.new 1 2 []) ::
          .tlopen (Tlopen.new 2 RD_ONLY) :: t, ?_⟩
        rw [ht, h4, h3, h2]
        rfl

/-! ## Concrete fixtures -/

/-- A symlink directory entry (qid type Link, dirent typ 0) named "a",
with the given server cookie in its offset field. -/
def direntLink (off : Nat) : Dirent :=
  ⟨⟨QidType.Link, 0, 0⟩, off, 0, [0x61]⟩

/-- An Rversion reply carrying the 9P2000.L version string. -/
def okVersionReply : Reply := .rversion (Version.new P9Version.V2000L)

/-- An Rversion reply carrying the plain 9P2000 version string. -/
def oldVersionReply : Reply :=
  .rversion { Version.new P9Version.V2000L with
    version := P9Version.V2000.toBytes }

/-- A server script whose root directory needs three Treaddir batches:
two non-empty replies followed by the empty terminator. -/
def scriptC5 : List Reply :=
  [okVersionReply, .rattach, .rwalk, .rlopen,
   .rreaddir [direntLink 5], .rreaddir [direntLink 9], .rreaddir []]

/-- A server script whose single root reply holds one Dirent with server
cookie 100, followed by the empty terminator. -/
def scriptC4 : List Reply :=
  [okVersionReply, .rattach, .rwalk, .rlopen,
   .rreaddir [direntLink 100], .rreaddir []]

/-- A complete successful pull against a server announcing version 9P2000
(not 9P2000.L). -/
def scriptC6 : List Reply :=
  [oldVersionReply, .rattach, .rwalk, .rlopen, .rreaddir []]

/-- A complete successful pull with an empty root directory. -/
def scriptC8 : List Reply :=
  [okVersionReply, .rattach, .rwalk, .rlopen, .rreaddir []]

/-! ## Claim theorems -/

/-- C1: for every message constructor in the catalog (Version::new,
Rlerror::new, Tclunk::new, Rclunk::new, Tgetattr::new, Rgetattr::new,
Tstatfs::new, Rstatfs::new, Tattach::new, Rattach::new, Twalk::new,
Rwalk::new, Tlopen::new, Rlopen::new, Treaddir::new, Rreaddir::new,
Tread::new, Rread::new, Twrite::new, Rwrite::new) and every argument
choice (with the encoded frame fitting the u32 size field), the size
stored in the constructed message equals the byte length of its
little-endian wire encoding. -/
theorem c1_size_fidelity :
    (∀ v, (Version.new v).size = (encVersion (Version.new v)).length) ∧
    (∀ ecode,
      (Rlerror.new ecode).size = (encRlerror (Rlerror.new ecode)).length) ∧
    (∀ fid, (Tclunk.new fid).size = (encTclunk (Tclunk.new fid)).length) ∧
    (Rclunk.new.size = (encRclunk Rclunk.new).length) ∧
    (∀ fid rm,
      (Tgetattr.new fid rm).size =
        (encTgetattr (Tgetattr.new fid rm)).length) ∧
    (∀ va q mo ui gi nl rd asz bsz bl ats atn mts mtn cts ctn bts btn
        ge dv,
      (Rgetattr.new va q mo ui gi nl rd asz bsz bl ats atn mts mtn cts
        ctn bts btn ge dv).size =
      (encRgetattr (Rgetattr.new va q mo ui gi nl rd asz bsz bl ats atn
        mts mtn cts ctn bts btn ge dv)).length) ∧
    (∀ fid, (Tstatfs.new fid).size = (encTstatfs (Tstatfs.new fid)).length) ∧
    (∀ ft bs bl bf ba fi ff fs nl,
      (Rstatfs.new ft bs bl bf ba fi ff fs nl).size =
        (encRstatfs (Rstatfs.new ft bs bl bf ba fi ff fs nl)).length) ∧
    (∀ fid afid un an nu, 23 + un.length + an.length < 4294967296 →
      (Tattach.new fid afid un an nu).size =
        (encTattach (Tattach.new fid afid un an nu)).length) ∧
    (∀ q, (Rattach.new q).size = (encRattach (Rattach.new q)).length) ∧
    (∀ fid nf ws, 17 + Twalk.wnameSz ws < 4294967296 →
      (Twalk.new fid nf ws).size = (encTwalk (Twalk.new fid nf ws)).length) ∧
    (∀ qs, 9 + 13 * List.length qs < 4294967296 →
      (Rwalk.new qs).size = (encRwalk (Rwalk.new qs)).length) ∧
    (∀ fid fl, (Tlopen.new fid fl).size =
      (encTlopen (Tlopen.new fid fl)).length) ∧
    (∀ q io, (Rlopen.new q io).size = (encRlopen (Rlopen.new q io)).length) ∧
    (∀ f o c, (Treaddir.new f o c).size =
      (encTreaddir (Treaddir.new f o c)).length) ∧
    (∀ ds, 11 + Rreaddir.dataSz ds < 4294967296 →
      (Rreaddir.new ds).size = (encRreaddir (Rreaddir.new ds)).length) ∧
    (∀ f o c, (Tread.new f o c).size = (encTread (Tread.new f o c)).length) ∧
    (∀ d, 11 + List.length d < 4294967296 →
      (Rread.new d).size = (encRread (Rread.new d)).length) ∧
    (∀ d f o, 23 + List.length d < 4294967296 →
      (Twrite.new d f o).size = (encTwrite (Twrite.new d f o)).length) ∧
    (∀ c, (Rwrite.new c).size = (encRwrite (Rwrite.new c)).length) := by
  refine ⟨?_, ?_, ?_, ?_, ?_, ?_, ?_, ?_, ?_, ?_, ?_, ?_, ?_, ?_, ?_, ?_,
    ?_, ?_, ?_, ?_⟩
  · intro v
    cases v <;> rfl
  · intro ecode
    rw [encRlerror_length]
    rfl
  · intro fid
    rw [encTclunk_length]
    rfl
  · rw [encRclunk_length]
    rfl
  · intro fid rm
    rw [encTgetattr_length]
    rfl
  · intro va q mo ui gi nl rd asz bsz bl ats atn mts mtn cts ctn bts btn
      ge dv
    rw [encRgetattr_length]
    rfl
  · intro fid
    rw [encTstatfs_length]
    rfl
  · intro ft bs bl bf ba fi ff fs nl
    rw [encRstatfs_length]
    rfl
  · intro fid afid un an nu h
    have hs : (Tattach.new fid afid un an nu).size =
        (4 + 1 + 2 + 4 + 4 + 2 + un.length + 2 + an.length + 4) %
          4294967296 := rfl
    have hu : (Tattach.new fid afid un an nu).uname = un := rfl
    have han : (Tattach.new fid afid un an nu).aname = an := rfl
    rw [hs, encTattach_length, hu, han]
    omega
  · intro q
    rw [encRattach_length]
    rfl
  · intro fid nf ws h
    have hs : (Twalk.new fid nf ws).size =
        (4 + 1 + 2 + 4 + 4 + 2 + Twalk.wnameSz ws) % 4294967296 := rfl
    have hw2 : (Twalk.new fid nf ws).wname = ws := rfl
    rw [hs, encTwalk_length, hw2]
    omega
  · intro qs h
    have hs : (Rwalk.new qs).size =
        (4 + 1 + 2 + 2 + List.length qs * 13) % 4294967296 := rfl
    have hw2 : (Rwalk.new qs).wname = qs := rfl
    rw [hs, encRwalk_length, hw2]
    omega
  · intro fid fl
    rw [encTlopen_length]
    rfl
  · intro q io
    rw [encRlopen_length]
    rfl
  · intro f o c
    rw [encTreaddir_length]
    rfl
  · intro ds h
    have hs : (Rreaddir.new ds).size =
        (4 + 1 + 2 + 4 + Rreaddir.dataSz ds) % 4294967296 := rfl
    have hd2 : (Rreaddir.new ds).data = ds := rfl
    rw [hs, encRreaddir_length, hd2]
    omega
  · intro f o c
    rw [encTread_length]
    rfl
  · intro d h
    have hs : (Rread.new d).size =
        (4 + 1 + 2 + 4 + List.length d) % 4294967296 := rfl
    have hd2 : (Rread.new d).data = d := rfl
    rw [hs, encRread_length, hd2]
    omega
  · intro d f o h
    have hs : (Twrite.new d f o).size =
        (4 + 1 + 2 + 4 + 8 + 4 + List.length d) % 4294967296 := rfl
    have hd2 : (Twrite.new d f o).data = d := rfl
    rw [hs, encTwrite_length, hd2]
    omega
  · intro c
    rw [encRwrite_length]
    rfl

/-- Witness for C1: the hypothesis-bearing conjuncts evaluated at concrete
messages. -/
theorem c1_size_fidelity_witness :
    (23 + unameRootB.length + anameTodoB.length < 4294967296 ∧
      (Tattach.new 1 NO_AFID unameRootB anameTodoB NO_NUNAME).size =
        (encTattach
          (Tattach.new 1 NO_AFID unameRootB anameTodoB NO_NUNAME)).length) ∧
    (17 + Twalk.wnameSz [[0x61]] < 4294967296 ∧
      (Twalk.new 1 2 [[0x61]]).size =
        (encTwalk (Twalk.new 1 2 [[0x61]])).length) ∧
    (9 + 13 * List.length [(⟨QidType.Dir, 0, 0⟩ : Qid)] < 4294967296 ∧
      (Rwalk.new [⟨QidType.Dir, 0, 0⟩]).size =
        (encRwalk (Rwalk.new [⟨QidType.Dir, 0, 0⟩])).length) ∧
    (11 + Rreaddir.dataSz [direntLink 5] < 4294967296 ∧
      (Rreaddir.new [direntLink 5]).size =
        (encRreaddir (Rreaddir.new [direntLink 5])).length) ∧
    (11 + List.length [0xde, 0xad] < 4294967296 ∧
      (Rread.new [0xde, 0xad]).size =
        (encRread (Rread.new [0xde, 0xad])).length) ∧
    (23 + List.length [0x01] < 4294967296 ∧
      (Twrite.new [0x01] 3 0).size =
        (encTwrite (Twrite.new [0x01] 3 0)).length) := by
  obtain ⟨hv, hrl, htc, hrc, hga, hrga, hts, hrs, hta, hra, htw, hrw, htl,
    hrlo, htrd, hrrd, htr2, hrr, htwr, hrwr⟩ := c1_size_fidelity
  exact ⟨⟨by decide, hta 1 NO_AFID unameRootB anameTodoB NO_NUNAME
      (by decide)⟩,
    ⟨by decide, htw 1 2 [[0x61]] (by decide)⟩,
    ⟨by decide, hrw [⟨QidType.Dir, 0, 0⟩] (by decide)⟩,
    ⟨by decide, hrrd [direntLink 5] (by decide)⟩,
    ⟨by decide, hrr [0xde, 0xad] (by decide)⟩,
    ⟨by decide, htwr [0x01] 3 0 (by decide)⟩⟩

/-- C9: Version::new(V2000L) (msize defaulted to 0x8000) encodes to the
21 golden bytes: size=21, typ=100, tag=0, msize=0x8000, u16 length 8,
then the 8 ASCII bytes of 9P2000.L, with no terminator or padding. -/
theorem c9_tversion_golden_bytes :
    encVersion (Version.new P9Version.V2000L) =
      [0x15, 0x00, 0x00, 0x00, 0x64, 0x00, 0x00, 0x00, 0x80, 0x00, 0x00,
       0x08, 0x00, 0x39, 0x50, 0x32, 0x30, 0x30, 0x30, 0x2e, 0x4c] ∧
    (Version.new P9Version.V2000L).size = 21 ∧
    (Version.new P9Version.V2000L).msize = 0x8000 ∧
    (encVersion (Version.new P9Version.V2000L)).length = 21 :=
  ⟨rfl, rfl, rfl, rfl⟩

/-- C2: for every message type in the catalog and every value whose
fields fit their wire widths (strings fit a u16 length, vectors fit
their count prefixes), decoding the little-endian encoding returns the
value with no bytes left over; in particular an Rreaddir whose data
mixes Dirents with different name lengths round-trips element for
element, preserving order, offsets, qids and names. -/
theorem c2_round_trip :
    (∀ m : Version, m.wf → parseVersion (encVersion m) = some (m, [])) ∧
    (∀ m : Rlerror, m.wf → parseRlerror (encRlerror m) = some (m, [])) ∧
    (∀ m : Tclunk, m.wf → parseTclunk (encTclunk m) = some (m, [])) ∧
    (∀ m : Rclunk, m.wf → parseRclunk (encRclunk m) = some (m, [])) ∧
    (∀ m : Tgetattr, m.wf → parseTgetattr (encTgetattr m) = some (m, [])) ∧
    (∀ m : Rgetattr, m.wf → parseRgetattr (encRgetattr m) = some (m, [])) ∧
    (∀ m : Tstatfs, m.wf → parseTstatfs (encTstatfs m) = some (m, [])) ∧
    (∀ m : Rstatfs, m.wf → parseRstatfs (encRstatfs m) = some (m, [])) ∧
    (∀ m : Tattach, m.wf → parseTattach (encTattach m) = some (m, [])) ∧
    (∀ m : Rattach, m.wf → parseRattach (encRattach m) = some (m, [])) ∧
    (∀ m : Twalk, m.wf → parseTwalk (encTwalk m) = some (m, [])) ∧
    (∀ m : Rwalk, m.wf → parseRwalk (encRwalk m) = some (m, [])) ∧
    (∀ m : Tlopen, m.wf → parseTlopen (encTlopen m) = some (m, [])) ∧
    (∀ m : Rlopen, m.wf → parseRlopen (encRlopen m) = some (m, [])) ∧
    (∀ m : Treaddir, m.wf → parseTreaddir (encTreaddir m) = some (m, [])) ∧
    (∀ m : Rreaddir, m.wf → parseRreaddir (encRreaddir m) = some (m, [])) ∧
    (∀ m : Tread, m.wf → parseTread (encTread m) = some (m, [])) ∧
    (∀ m : Rread, m.wf → parseRread (encRread m) = some (m, [])) ∧
    (∀ m : Twrite, m.wf → parseTwrite (encTwrite m) = some (m, [])) ∧
    (∀ m : Rwrite, m.wf → parseRwrite (encRwrite m) = some (m, [])) ∧
    parseRreaddir (encRreaddir (Rreaddir.new
      [⟨⟨QidType.Dir, 1, 2⟩, 7, 4, [0x61]⟩,
       ⟨⟨QidType.File, 3, 4⟩, 9, 0, [0x62, 0x63]⟩])) =
      some (Rreaddir.new
        [⟨⟨QidType.Dir, 1, 2⟩, 7, 4, [0x61]⟩,
         ⟨⟨QidType.File, 3, 4⟩, 9, 0, [0x62, 0x63]⟩], []) := by
  refine ⟨?_, ?_, ?_, ?_, ?_, ?_, ?_, ?_, ?_, ?_, ?_, ?_, ?_, ?_, ?_, ?_,
    ?_, ?_, ?_, ?_, by decide⟩ <;>
    intro m h <;>
    first
    | (have he := parseVersion_enc h []
       rwa [List.append_nil] at he)
    | (have he := parseRlerror_enc h []
       rwa [List.append_nil] at he)
    | (have he := parseTclunk_enc h []
       rwa [List.append_nil] at he)
    | (have he := parseRclunk_enc h []
       rwa [List.append_nil] at he)
    | (have he := parseTgetattr_enc h []
       rwa [List.append_nil] at he)
    | (have he := parseRgetattr_enc h []
       rwa [List.append_nil] at he)
    | (have he := parseTstatfs_enc h []
       rwa [List.append_nil] at he)
    | (have he := parseRstatfs_enc h []
       rwa [List.append_nil] at he)
    | (have he := parseTattach_enc h []
       rwa [List.append_nil] at he)
    | (have he := parseRattach_enc h []
       rwa [List.append_nil] at he)
    | (have he := parseTwalk_enc h []
       rwa [List.append_nil] at he)
    | (have he := parseRwalk_enc h []
       rwa [List.append_nil] at he)
    | (have he := parseTlopen_enc h []
       rwa [List.append_nil] at he)
    | (have he := parseRlopen_enc h []
       rwa [List.append_nil] at he)
    | (have he := parseTreaddir_enc h []
       rwa [List.append_nil] at he)
    | (have he := parseRreaddir_enc h []
       rwa [List.append_nil] at he)
    | (have he := parseTread_enc h []
       rwa [List.append_nil] at he)
    | (have he := parseRread_enc h []
       rwa [List.append_nil] at he)
    | (have he := parseTwrite_enc h []
       rwa [List.append_nil] at he)
    | (have he := parseRwrite_enc h []
       rwa [List.append_nil] at he)

instance (m : Version) : Decidable m.wf := by unfold Version.wf; infer_instance
instance (m : Rlerror) : Decidable m.wf := by unfold Rlerror.wf; infer_instance
instance (m : Tclunk) : Decidable m.wf := by unfold Tclunk.wf; infer_instance
instance (m : Rclunk) : Decidable m.wf := by unfold Rclunk.wf; infer_instance
instance (m : Tgetattr) : Decidable m.wf := by unfold Tgetattr.wf; infer_instance
instance (m : Rgetattr) : Decidable m.wf := by unfold Rgetattr.wf; infer_instance
instance (m : Tstatfs) : Decidable m.wf := by unfold Tstatfs.wf; infer_instance
instance (m : Rstatfs) : Decidable m.wf := by unfold Rstatfs.wf; infer_instance
instance (m : Tattach) : Decidable m.wf := by unfold Tattach.wf; infer_instance
instance (m : Rattach) : Decidable m.wf := by unfold Rattach.wf; infer_instance
instance (m : Twalk) : Decidable m.wf := by unfold Twalk.wf; infer_instance
instance (m : Rwalk) : Decidable m.wf := by unfold Rwalk.wf; infer_instance
instance (m : Tlopen) : Decidable m.wf := by unfold Tlopen.wf; infer_instance
instance (m : Rlopen) : Decidable m.wf := by unfold Rlopen.wf; infer_instance
instance (m : Treaddir) : Decidable m.wf := by unfold Treaddir.wf; infer_instance
instance (m : Rreaddir) : Decidable m.wf := by unfold Rreaddir.wf; infer_instance
instance (m : Tread) : Decidable m.wf := by unfold Tread.wf; infer_instance
instance (m : Rread) : Decidable m.wf := by unfold Rread.wf; infer_instance
instance (m : Twrite) : Decidable m.wf := by unfold Twrite.wf; infer_instance
instance (m : Rwrite) : Decidable m.wf := by unfold Rwrite.wf; infer_instance

/-- Witness for C2: every catalog message type round-tripped at a concrete
wellformed value. -/
theorem c2_round_trip_witness :
    (Version.new P9Version.V2000L).wf ∧
    parseVersion (encVersion (Version.new P9Version.V2000L)) = some (Version.new P9Version.V2000L, []) ∧
    (Rlerror.new 2).wf ∧
    parseRlerror (encRlerror (Rlerror.new 2)) = some (Rlerror.new 2, []) ∧
    (Tclunk.new 1).wf ∧
    parseTclunk (encTclunk (Tclunk.new 1)) = some (Tclunk.new 1, []) ∧
    (Rclunk.new).wf ∧
    parseRclunk (encRclunk (Rclunk.new)) = some (Rclunk.new, []) ∧
    (Tgetattr.new 1 0x3fff).wf ∧
    parseTgetattr (encTgetattr (Tgetattr.new 1 0x3fff)) = some (Tgetattr.new 1 0x3fff, []) ∧
    (Rgetattr.new 1 ⟨QidType.Dir, 0, 0⟩ 0 0 0 1 0 0 0 0 0 0 0 0 0 0 0 0 0 0).wf ∧
    parseRgetattr (encRgetattr (Rgetattr.new 1 ⟨QidType.Dir, 0, 0⟩ 0 0 0 1 0 0 0 0 0 0 0 0 0 0 0 0 0 0)) = some (Rgetattr.new 1 ⟨QidType.Dir, 0, 0⟩ 0 0 0 1 0 0 0 0 0 0 0 0 0 0 0 0 0 0, []) ∧
    (Tstatfs.new 1).wf ∧
    parseTstatfs (encTstatfs (Tstatfs.new 1)) = some (Tstatfs.new 1, []) ∧
    (Rstatfs.new 1 4096 10 5 5 100 50 7 255).wf ∧
    parseRstatfs (encRstatfs (Rstatfs.new 1 4096 10 5 5 100 50 7 255)) = some (Rstatfs.new 1 4096 10 5 5 100 50 7 255, []) ∧
    (Tattach.new 1 NO_AFID unameRootB anameTodoB NO_NUNAME).wf ∧
    parseTattach (encTattach (Tattach.new 1 NO_AFID unameRootB anameTodoB NO_NUNAME)) = some (Tattach.new 1 NO_AFID unameRootB anameTodoB NO_NUNAME, []) ∧
    (Rattach.new ⟨QidType.Dir, 0, 0⟩).wf ∧
    parseRattach (encRattach (Rattach.new ⟨QidType.Dir, 0, 0⟩)) = some (Rattach.new ⟨QidType.Dir, 0, 0⟩, []) ∧
    (Twalk.new 1 2 [[0x61]]).wf ∧
    parseTwalk (encTwalk (Twalk.new 1 2 [[0x61]])) = some (Twalk.new 1 2 [[0x61]], []) ∧
    (Rwalk.new [⟨QidType.Dir, 0, 0⟩]).wf ∧
    parseRwalk (encRwalk (Rwalk.new [⟨QidType.Dir, 0, 0⟩])) = some (Rwalk.new [⟨QidType.Dir, 0, 0⟩], []) ∧
    (Tlopen.new 2 0).wf ∧
    parseTlopen (encTlopen (Tlopen.new 2 0)) = some (Tlopen.new 2 0, []) ∧
    (Rlopen.new ⟨QidType.File, 0, 0⟩ 0).wf ∧
    parseRlopen (encRlopen (Rlopen.new ⟨QidType.File, 0, 0⟩ 0)) = some (Rlopen.new ⟨QidType.File, 0, 0⟩ 0, []) ∧
    (Treaddir.new 2 0 65525).wf ∧
    parseTreaddir (encTreaddir (Treaddir.new 2 0 65525)) = some (Treaddir.new 2 0 65525, []) ∧
    (Rreaddir.new [direntLink 5]).wf ∧
    parseRreaddir (encRreaddir (Rreaddir.new [direntLink 5])) = some (Rreaddir.new [direntLink 5], []) ∧
    (Tread.new 3 0 8181).wf ∧
    parseTread (encTread (Tread.new 3 0 8181)) = some (Tread.new 3 0 8181, []) ∧
    (Rread.new [0xde, 0xad]).wf ∧
    parseRread (encRread (Rread.new [0xde, 0xad])) = some (Rread.new [0xde, 0xad], []) ∧
    (Twrite.new [1, 2] 3 0).wf ∧
    parseTwrite (encTwrite (Twrite.new [1, 2] 3 0)) = some (Twrite.new [1, 2] 3 0, []) ∧
    (Rwrite.new 2).wf ∧
    parseRwrite (encRwrite (Rwrite.new 2)) = some (Rwrite.new 2, []) := by
  obtain ⟨h1, h2, h3, h4, h5, h6, h7, h8, h9, h10, h11, h12, h13, h14, h15, h16, h17, h18, h19, h20, _⟩ := c2_round_trip
  exact ⟨by decide, h1 (Version.new P9Version.V2000L) (by decide),
    by decide, h2 (Rlerror.new 2) (by decide),
    by decide, h3 (Tclunk.new 1) (by decide),
    by decide, h4 (Rclunk.new) (by decide),
    by decide, h5 (Tgetattr.new 1 0x3fff) (by decide),
    by decide, h6 (Rgetattr.new 1 ⟨QidType.Dir, 0, 0⟩ 0 0 0 1 0 0 0 0 0 0 0 0 0 0 0 0 0 0) (by decide),
    by decide, h7 (Tstatfs.new 1) (by decide),
    by decide, h8 (Rstatfs.new 1 4096 10 5 5 100 50 7 255) (by decide),
    by decide, h9 (Tattach.new 1 NO_AFID unameRootB anameTodoB NO_NUNAME) (by decide),
    by decide, h10 (Rattach.new ⟨QidType.Dir, 0, 0⟩) (by decide),
    by decide, h11 (Twalk.new 1 2 [[0x61]]) (by decide),
    by decide, h12 (Rwalk.new [⟨QidType.Dir, 0, 0⟩]) (by decide),
    by decide, h13 (Tlopen.new 2 0) (by decide),
    by decide, h14 (Rlopen.new ⟨QidType.File, 0, 0⟩ 0) (by decide),
    by decide, h15 (Treaddir.new 2 0 65525) (by decide),
    by decide, h16 (Rreaddir.new [direntLink 5]) (by decide),
    by decide, h17 (Tread.new 3 0 8181) (by decide),
    by decide, h18 (Rread.new [0xde, 0xad]) (by decide),
    by decide, h19 (Twrite.new [1, 2] 3 0) (by decide),
    by decide, h20 (Rwrite.new 2) (by decide)⟩

/-- C3: read_msg dispatch. For an expected response type other than
Rlerror: a reply buffer whose framed type is Rlerror's opcode and whose
Rlerror decode carries ecode e fails with ServerError carrying that
Rlerror; a buffer whose framed type is neither the expected opcode nor
Rlerror's fails with UnexpectedReturnType(expected, received) — e.g.
Rversion bytes when Rattach is expected; a buffer whose framed type
matches and fully decodes is returned decoded. -/
theorem c3_dispatch :
    (∀ (R : Type) (mtype : MessageType)
        (parse : List Nat → Option (R × List Nat)) (data : List Nat)
        (p : Partial) (rest : List Nat) (e : Rlerror) (rest2 : List Nat),
      parsePartial data = some (p, rest) →
      p.typ = MessageType.Rlerror →
      mtype ≠ MessageType.Rlerror →
      parseRlerror data = some (e, rest2) →
      readMsg mtype parse data = .serverError e) ∧
    (∀ (R : Type) (mtype : MessageType)
        (parse : List Nat → Option (R × List Nat)) (data : List Nat)
        (p : Partial) (rest : List Nat),
      parsePartial data = some (p, rest) →
      p.typ ≠ mtype →
      p.typ ≠ MessageType.Rlerror →
      readMsg mtype parse data = .unexpected mtype p.typ) ∧
    (∀ (R : Type) (mtype : MessageType)
        (parse : List Nat → Option (R × List Nat)) (data : List Nat)
        (p : Partial) (rest : List Nat) (r : R) (rest2 : List Nat),
      parsePartial data = some (p, rest) →
      p.typ = mtype →
      parse data = some (r, rest2) →
      readMsg mtype parse data = .ok r) ∧
    (readMsg MessageType.Rattach parseRattach
        (encVersion { Version.new P9Version.V2000L with
          typ := MessageType.Rversion }) =
      .unexpected MessageType.Rattach MessageType.Rversion) ∧
    (readMsg MessageType.Rattach parseRattach
        (encRlerror (Rlerror.new 2)) =
      .serverError (Rlerror.new 2)) := by
  refine ⟨?_, ?_, ?_, by decide, by decide⟩
  · intro R mtype parse data p rest e rest2 hp htyp hm he
    have hne : p.typ ≠ mtype := by
      intro hc
      exact hm (by rw [← hc, htyp])
    unfold readMsg
    rw [hp]
    dsimp only
    rw [if_pos hne, if_pos htyp, he]
  · intro R mtype parse data p rest hp hne hnl
    unfold readMsg
    rw [hp]
    dsimp only
    rw [if_pos hne, if_neg hnl]
  · intro R mtype parse data p rest r rest2 hp heq hr
    have hnn : ¬ p.typ ≠ mtype := fun hc => hc heq
    unfold readMsg
    rw [hp]
    dsimp only
    rw [if_neg hnn, hr]

/-- Witness for C3: the three dispatch branches applied to concrete reply
buffers built with the message encoders. -/
theorem c3_dispatch_witness :
    parsePartial (encRlerror (Rlerror.new 7)) =
      some (⟨11, MessageType.Rlerror, 0⟩, [7, 0, 0, 0]) ∧
    parseRlerror (encRlerror (Rlerror.new 7)) =
      some (Rlerror.new 7, []) ∧
    readMsg MessageType.Rversion parseVersion
      (encRlerror (Rlerror.new 7)) = .serverError (Rlerror.new 7) ∧
    parsePartial (encTclunk (Tclunk.new 1)) =
      some (⟨11, MessageType.Tclunk, 0⟩, [1, 0, 0, 0]) ∧
    readMsg MessageType.Rversion parseVersion (encTclunk (Tclunk.new 1)) =
      .unexpected MessageType.Rversion MessageType.Tclunk ∧
    parseRlopen (encRlopen (Rlopen.new ⟨QidType.File, 0, 0⟩ 0)) =
      some (Rlopen.new ⟨QidType.File, 0, 0⟩ 0, []) ∧
    readMsg MessageType.Rlopen parseRlopen
      (encRlopen (Rlopen.new ⟨QidType.File, 0, 0⟩ 0)) =
      .ok (Rlopen.new ⟨QidType.File, 0, 0⟩ 0) :=
  ⟨by decide, by decide,
   c3_dispatch.1 Version MessageType.Rversion parseVersion
     (encRlerror (Rlerror.new 7)) ⟨11, MessageType.Rlerror, 0⟩
     [7, 0, 0, 0] (Rlerror.new 7) [] (by decide) (by decide) (by decide)
     (by decide),
   by decide,
   c3_dispatch.2.1 Version MessageType.Rversion parseVersion
     (encTclunk (Tclunk.new 1)) ⟨11, MessageType.Tclunk, 0⟩ [1, 0, 0, 0]
     (by decide) (by decide) (by decide),
   by decide,
   c3_dispatch.2.2.1 Rlopen MessageType.Rlopen parseRlopen
     (encRlopen (Rlopen.new ⟨QidType.File, 0, 0⟩ 0))
     ⟨24, MessageType.Rlopen, 0⟩ [0, 0, 0, 0, 0, 0, 0, 0, 0, 0, 0, 0,
       0, 0, 0, 0, 0] (Rlopen.new ⟨QidType.File, 0, 0⟩ 0) []
     (by decide) (by decide) (by decide)⟩


/-- C4 counterexample: with chunk size 34 the run loop reaches a second
iteration; the reply's only (hence last) Dirent carries server cookie
100 in its offset field, yet the next Treaddir the driver issues on fid
2 carries offset 1 — the cumulative entry count, not the cookie. -/
theorem c4_counterexample :
    ((runModel 34 scriptC4 10).1).reqs.get? 4 =
      some (.treaddir (Treaddir.new 2 0 23)) ∧
    ((runModel 34 scriptC4 10).1).reqs.get? 5 =
      some (.treaddir (Treaddir.new 2 1 23)) ∧
    (direntLink 100).offset = 100 ∧
    [direntLink 100].getLast? = some (direntLink 100) ∧
    (1 : Nat) ≠ 100 :=
  ⟨rfl, rfl, rfl, rfl, by decide⟩

/-- C4 amended: in every directory-enumeration loop of the pull driver —
the top-level loop in run and copydir's per-subdirectory loop — whenever
an Rreaddir reply is non-empty and the loop goes on (the request-size
break does not fire and the per-entry copy succeeds), the loop reenters
with its offset cursor advanced by the number of directory entries in
that reply: the cumulative entry count, not the last Dirent's offset
cookie. -/
theorem c4_offset_advance :
    (∀ (fuel chunk off : Nat) (ds : List Dirent) (rest : List Reply)
        (reqs : List Req) (nf : Nat) (s1 : St),
      ds ≠ [] →
      ¬ (Treaddir.new 2 off (chunk - 11)).size < chunk - 11 →
      copyEntries fuel ds 2 chunk
        ⟨rest, reqs ++ [.treaddir (Treaddir.new 2 off (chunk - 11))],
          nf⟩ = (s1, true) →
      runLoop (fuel + 1) chunk off ⟨Reply.rreaddir ds :: rest, reqs, nf⟩ =
        runLoop fuel chunk (off + ds.length) s1) ∧
    (∀ (fuel newfid chunk off : Nat) (ds : List Dirent)
        (rest : List Reply) (reqs : List Req) (nf : Nat) (s1 : St),
      ds ≠ [] →
      ¬ (Treaddir.new newfid off (chunk - 11)).size < chunk - 11 →
      copyEntries fuel ds newfid chunk
        ⟨rest,
          reqs ++ [.treaddir (Treaddir.new newfid off (chunk - 11))],
          nf⟩ = (s1, true) →
      dirLoop (fuel + 1) newfid off chunk
          ⟨Reply.rreaddir ds :: rest, reqs, nf⟩ =
        dirLoop fuel newfid (off + ds.length) chunk s1) := by
  constructor
  · intro fuel chunk off ds rest reqs nf s1 hne hcont hcopy
    simp only [runLoop]
    have hsend : sendTreaddir ⟨Reply.rreaddir ds :: rest, reqs, nf⟩
        (Treaddir.new 2 off (chunk - 11)) =
        (⟨rest, reqs ++ [.treaddir (Treaddir.new 2 off (chunk - 11))],
          nf⟩, some ds) := rfl
    rw [hsend]
    dsimp only
    rw [if_neg hne, hcopy]
    dsimp only
    rw [if_neg hcont]
  · intro fuel newfid chunk off ds rest reqs nf s1 hne hcont hcopy
    simp only [copyEntries] at hcopy
    simp only [dirLoop, drive]
    have hsend : sendTreaddir ⟨Reply.rreaddir ds :: rest, reqs, nf⟩
        (Treaddir.new newfid off (chunk - 11)) =
        (⟨rest,
          reqs ++ [.treaddir (Treaddir.new newfid off (chunk - 11))],
          nf⟩, some ds) := rfl
    rw [hsend]
    dsimp only
    rw [if_neg hne, hcopy]
    dsimp only
    rw [if_neg hcont]

/-- Witness for C4 amended: one step of each loop at chunk 34 on a
single-entry reply whose Dirent cookie is 100; the next cursor is 1 in
both the top-level loop (fid 2) and a subdirectory loop (fid 7). -/
theorem c4_offset_advance_witness :
    ([direntLink 100] ≠ ([] : List Dirent)) ∧
    (¬ (Treaddir.new 2 0 (34 - 11)).size < 34 - 11) ∧
    copyEntries 1 [direntLink 100] 2 34
      ⟨[], [.treaddir (Treaddir.new 2 0 (34 - 11))], 3⟩ =
      (⟨[], [.treaddir (Treaddir.new 2 0 (34 - 11))], 3⟩, true) ∧
    runLoop 2 34 0 ⟨[Reply.rreaddir [direntLink 100]], [], 3⟩ =
      runLoop 1 34 1 ⟨[], [.treaddir (Treaddir.new 2 0 (34 - 11))], 3⟩ ∧
    (¬ (Treaddir.new 7 0 (34 - 11)).size < 34 - 11) ∧
    copyEntries 1 [direntLink 100] 7 34
      ⟨[], [.treaddir (Treaddir.new 7 0 (34 - 11))], 8⟩ =
      (⟨[], [.treaddir (Treaddir.new 7 0 (34 - 11))], 8⟩, true) ∧
    dirLoop 2 7 0 34 ⟨[Reply.rreaddir [direntLink 100]], [], 8⟩ =
      dirLoop 1 7 1 34
        ⟨[], [.treaddir (Treaddir.new 7 0 (34 - 11))], 8⟩ :=
  ⟨by decide, by decide, by decide,
   c4_offset_advance.1 1 34 0 [direntLink 100] [] [] 3
     ⟨[], [.treaddir (Treaddir.new 2 0 (34 - 11))], 3⟩
     (by decide) (by decide) (by decide),
   by decide, by decide,
   c4_offset_advance.2 1 7 34 0 [direntLink 100] [] [] 8
     ⟨[], [.treaddir (Treaddir.new 7 0 (34 - 11))], 8⟩
     (by decide) (by decide) (by decide)⟩

/-- C5: with the default chunk size 65536 the enumeration loops stop
after the first non-empty Rreaddir — the break compares the size field
of the Treaddir request itself (always 23) against chunk - 11 — so the
run issues exactly one Treaddir, reports success, and never consumes the
remaining scripted batches (including the empty terminator); the inner
copydir loop behaves the same way. -/
theorem c5_enumeration_stops_after_first_batch :
    (runModel 65536 scriptC5 10).2 = true ∧
    ((runModel 65536 scriptC5 10).1).reqs =
      [.version (verRequest 65536),
       .tattach (Tattach.new 1 NO_AFID unameRootB anameTodoB NO_NUNAME),
       .twalk (Twalk.new 1 2 []),
       .tlopen (Tlopen.new 2 RD_ONLY),
       .treaddir (Treaddir.new 2 0 65525)] ∧
    ((runModel 65536 scriptC5 10).1).script =
      [.rreaddir [direntLink 9], .rreaddir []] ∧
    dirLoop 10 7 0 65536
        ⟨[.rreaddir [direntLink 5], .rreaddir []], [], 8⟩ =
      (⟨[.rreaddir []], [.treaddir (Treaddir.new 7 0 65525)], 8⟩, true) :=
  ⟨rfl, rfl, rfl, rfl⟩

/-- C6 counterexample: a full pull against a server whose Rversion reply
carries 9P2000 (not 9P2000.L) succeeds — run issues the Tattach and
returns no error, so a version mismatch does not fail the pull. -/
theorem c6_counterexample :
    P9Version.V2000.toBytes ≠ P9Version.V2000L.toBytes ∧
    (runModel 34 scriptC6 10).2 = true ∧
    ((runModel 34 scriptC6 10).1).reqs.get? 1 =
      some (.tattach (Tattach.new 1 NO_AFID unameRootB anameTodoB
        NO_NUNAME)) :=
  ⟨by decide, rfl, rfl⟩

/-- C6 amended: run sends a Tversion whose msize is the configured chunk
size, but never examines the reply's version string: the first request
is always that Tversion, and two runs differing only in the contents of
the server's Rversion reply behave identically. -/
theorem c6_version_not_checked :
    (∀ chunk, (verRequest chunk).msize = chunk) ∧
    (∀ chunk script fuel,
      ((runModel chunk script fuel).1).reqs.head? =
        some (.version (verRequest chunk))) ∧
    (∀ chunk m1 m2 rest fuel,
      runModel chunk (Reply.rversion m1 :: rest) fuel =
        runModel chunk (Reply.rversion m2 :: rest) fuel) := by
  refine ⟨fun chunk => rfl, ?_, fun chunk m1 m2 rest fuel => rfl⟩
  intro chunk script fuel
  obtain ⟨t, ht⟩ := runModel_reqs_head chunk script fuel
  rw [ht]
  rfl

/-- C7 counterexample: a try_write that accepts only 2 bytes of an
11-byte Tclunk frame ends the stream client's write phase — send
proceeds to read with only that prefix transmitted. -/
theorem c7_counterexample :
    (writeLoop [WriteEv.accepted 2] (encTclunk (Tclunk.new 1))).2 =
      WriteOutcome.proceedToRead ∧
    (writeLoop [WriteEv.accepted 2] (encTclunk (Tclunk.new 1))).1 ≠
      encTclunk (Tclunk.new 1) :=
  ⟨rfl, by decide⟩

/-- C7 amended: the stream client's write phase retries only on
WouldBlock; the first accepted try_write of n bytes ends it, after which
exactly the first n bytes of the frame have been transmitted and send
proceeds to read — a partial write's remainder is not retransmitted. -/
theorem c7_first_accepted_write_ends_phase (k n : Nat)
    (rest : List WriteEv) (out : List Nat) :
    writeLoop (List.replicate k WriteEv.wouldBlock ++
        WriteEv.accepted n :: rest) out =
      (out.take n, WriteOutcome.proceedToRead) := by
  induction k with
  | zero => rfl
  | succ k ih => simpa [List.replicate_succ, writeLoop] using ih

/-- C8 counterexample: the Tattach issued by run names the attach root
"/todo", not "/". -/
theorem c8_counterexample :
    ((runModel 34 scriptC8 10).1).reqs.get? 1 =
      some (.tattach (Tattach.new 1 NO_AFID unameRootB anameTodoB
        NO_NUNAME)) ∧
    (Tattach.new 1 NO_AFID unameRootB anameTodoB NO_NUNAME).aname =
      anameTodoB ∧
    anameTodoB ≠ slashB :=
  ⟨rfl, rfl, by decide⟩

/-- C8 amended: whenever the version exchange is answered with an
Rversion reply, the driver's second request is exactly
Tattach with fid 1, afid NO_AFID, uname "root", aname "/todo" and
n_uname NO_NUNAME. -/
theorem c8_attach_request :
    (∀ chunk m rest fuel,
      ((runModel chunk (Reply.rversion m :: rest) fuel).1).reqs.get? 1 =
        some (.tattach (Tattach.new 1 NO_AFID unameRootB anameTodoB
          NO_NUNAME))) ∧
    (Tattach.new 1 NO_AFID unameRootB anameTodoB NO_NUNAME).fid = 1 ∧
    (Tattach.new 1 NO_AFID unameRootB anameTodoB NO_NUNAME).afid =
      NO_AFID ∧
    (Tattach.new 1 NO_AFID unameRootB anameTodoB NO_NUNAME).uname =
      unameRootB ∧
    (Tattach.new 1 NO_AFID unameRootB anameTodoB NO_NUNAME).aname =
      anameTodoB ∧
    (Tattach.new 1 NO_AFID unameRootB anameTodoB NO_NUNAME).n_uname =
      NO_NUNAME := by
  refine ⟨?_, rfl, rfl, rfl, rfl, rfl⟩
  intro chunk m rest fuel
  obtain ⟨t, ht⟩ := runModel_second_req chunk m rest fuel
  rw [ht]
  rfl

/-- C10: a Dirent whose qid type is neither Dir (0x80) nor File (0x00)
and whose directory-entry typ byte is not DT_DIR is silently skipped by
copydir: processing it leaves the state untouched (no request is issued,
no fid is minted, no error is raised) and the loop continues with the
remaining entries. -/
theorem c10_special_entries_skipped (fuel : Nat) (e : Dirent)
    (rest : List Dirent) (fid chunk : Nat) (s : St)
    (h1 : e.qid.typ ≠ QidType.Dir) (h2 : e.qid.typ ≠ QidType.File)
    (h3 : e.typ ≠ DT_DIR) :
    copyEntries (fuel + 1) (e :: rest) fid chunk s =
      copyEntries fuel rest fid chunk s ∧
    copyEntries (fuel + 1) [e] fid chunk s = (s, true) := by
  have hno : ¬(e.qid.typ = QidType.Dir ∨ e.typ = DT_DIR) := by
    intro hc
    rcases hc with hc | hc
    · exact h1 hc
    · exact h3 hc
  constructor
  · simp only [copyEntries, drive]
    rw [if_neg hno, if_neg h2]
  · simp only [copyEntries, drive]
    rw [if_neg hno, if_neg h2]

/-- Witness for C10: a symlink entry (qid type Link, typ byte 0) is
skipped without any request or state change. -/
theorem c10_special_entries_skipped_witness :
    ((direntLink 5).qid.typ ≠ QidType.Dir) ∧
    ((direntLink 5).qid.typ ≠ QidType.File) ∧
    ((direntLink 5).typ ≠ DT_DIR) ∧
    (copyEntries 1 [direntLink 5] 2 65536 ⟨[], [], 3⟩ =
      copyEntries 0 [] 2 65536 ⟨[], [], 3⟩ ∧
    copyEntries 1 [direntLink 5] 2 65536 ⟨[], [], 3⟩ =
      (⟨[], [], 3⟩, true)) :=
  ⟨by decide, by decide, by decide,
   c10_special_entries_skipped 0 (direntLink 5) [] 2 65536 ⟨[], [], 3⟩
     (by decide) (by decide) (by decide)⟩

end P9
